import Mathlib

/-!
# HealthAssistant prediction-to-advice pipeline: a shallow embedding

This file embeds the deterministic prediction-to-advice logic of the
HealthAssistant backend in Lean 4 and proves the specification's claims
about it:

* `calculate_risk_level` (src/backend/main.py): the Risk Resolver.
* `determine_advice_level` and `generate_precautions`
  (src/backend/precautions.py): the Precaution Generator, together with the
  static tables `DISEASE_PRECAUTIONS` and `DEFAULT_PRECAUTIONS`.
* `get_recommended_doctors` and `_calculate_relevance`
  (src/backend/doctors.py): the Doctor Matcher, together with the static
  tables `DOCTORS_DATABASE` and `DISEASE_SPECIALIZATION_MAP`.

Modelling conventions: Python floats are embedded as rationals (`ℚ`); the
threshold comparisons of the source only involve the constants 0.7, 0.4,
0.3 and 0.5 applied to model probabilities, so the rational model is exact.
Python strings are `String`; risk tiers and advice levels stay strings as
in the source.  Python attribute access on history records, which can
raise `AttributeError` on malformed elements, is modelled with
`Except String`: `generate_precautions` returns `Except String AdvicePayload`,
where `Except.error` corresponds to an uncaught Python exception.
-/

namespace HealthAssistant

/-- A record of the static doctor directory (src/backend/doctors.py).
Field names and types follow the Python dict keys; `experience` is kept as
the raw string (for example "15 years") that `_calculate_relevance` parses. -/
structure Doctor where
  id : Nat
  name : String
  specialization : String
  expertise : List String
  location : String
  contact : String
  availability : String
  consultation_fee : String
  experience : String
deriving DecidableEq, Repr

/-- One entry of DISEASE_PRECAUTIONS (src/backend/precautions.py): the four
precaution lists attached to a disease. -/
structure PrecautionEntry where
  general : List String
  dos : List String
  donts : List String
  consult_doctor : List String
deriving DecidableEq, Repr

/-- The static doctor directory DOCTORS_DATABASE from src/backend/doctors.py (64 entries, in file order). -/
def DOCTORS_DATABASE : List Doctor := [
  { id := 1, name := "Dr. Anitha Kolukula",
    specialization := "General Physician",
    expertise := ["Influenza (Flu)", "Fever", "Viral Infections", "Common Cold"],
    location := "Apollo Hospitals Health City, Visakhapatnam",
    contact := "Not Available", availability := "Mon-Sat: 9AM-5PM",
    consultation_fee := "₹500", experience := "15 years" },
  { id := 2, name := "Dr. G. V. Hari Krishna",
    specialization := "General Physician",
    expertise := ["Influenza (Flu)", "Fever", "Viral Infections", "Common Cold"],
    location := "Prasad Clinic, Visakhapatnam",
    contact := "Not Available", availability := "Mon-Sat: 9AM-6PM",
    consultation_fee := "₹400", experience := "16 years" },
  { id := 3, name := "Dr. U H P Kshipani",
    specialization := "General Physician",
    expertise := ["Influenza (Flu)", "Fever", "Viral Infections", "Common Cold"],
    location := "Apollo Clinic Seethammapeta, Visakhapatnam",
    contact := "040-44442424", availability := "Mon-Sat: 10AM-6PM",
    consultation_fee := "₹500", experience := "10 years" },
  { id := 4, name := "Dr. G Sarveswara Rao",
    specialization := "General Physician",
    expertise := ["Influenza (Flu)", "Fever", "Viral Infections", "Common Cold"],
    location := "Apollo Clinic, Visakhapatnam",
    contact := "Not Available", availability := "Mon-Sat: 9AM-5PM",
    consultation_fee := "₹500", experience := "15 years" },
  { id := 5, name := "Dr. Ravi Kumar Gurugubelli",
    specialization := "General Physician",
    expertise := ["Influenza (Flu)", "Fever", "Viral Infections", "Common Cold"],
    location := "Medicover Hospitals, Visakhapatnam",
    contact := "Not Available", availability := "Mon-Sat: 9AM-6PM",
    consultation_fee := "₹600", experience := "23 years" },
  { id := 6, name := "Dr. K Vamsi Krishna",
    specialization := "General Physician",
    expertise := ["Influenza (Flu)", "Fever", "Viral Infections", "Common Cold"],
    location := "Seven Hills Hospital, Visakhapatnam",
    contact := "Not Available", availability := "Mon-Sat: 10AM-5PM",
    consultation_fee := "₹450", experience := "11 years" },
  { id := 7, name := "Dr. Thriveni Reddy",
    specialization := "General Physician",
    expertise := ["Influenza (Flu)", "Fever", "Viral Infections", "Common Cold"],
    location := "Private Clinic, Visakhapatnam",
    contact := "Not Available", availability := "Mon-Sat: 9AM-6PM",
    consultation_fee := "₹400", experience := "22 years" },
  { id := 8, name := "Dr. C H Madhuri",
    specialization := "General Physician",
    expertise := ["Influenza (Flu)", "Fever", "Viral Infections", "Common Cold"],
    location := "Private Clinic, Visakhapatnam",
    contact := "Not Available", availability := "Mon-Sat: 9AM-5PM",
    consultation_fee := "₹350", experience := "30 years" },
  { id := 9, name := "Dr. Sai Sekhar P",
    specialization := "General Physician",
    expertise := ["Influenza (Flu)", "Fever", "Viral Infections", "Common Cold"],
    location := "Private Clinic Muralinagar, Visakhapatnam",
    contact := "Not Available", availability := "Mon-Sat: 10AM-6PM",
    consultation_fee := "₹350", experience := "9 years" },
  { id := 10, name := "Dr. A. Mythili",
    specialization := "Endocrinologist",
    expertise := ["Diabetes Symptoms", "Diabetes", "Hormonal Issues", "Thyroid"],
    location := "Neuro and Endocrine Clinic, Visakhapatnam",
    contact := "Not Available", availability := "Mon-Sat: 10AM-5PM",
    consultation_fee := "₹600", experience := "20 years" },
  { id := 11, name := "Dr. K. Dileep Kumar",
    specialization := "Diabetologist",
    expertise := ["Diabetes Symptoms", "Diabetes", "Metabolic Disorders"],
    location := "Visakha Diabetes & Endocrine Centre, Visakhapatnam",
    contact := "Not Available", availability := "Mon-Sat: 9AM-6PM",
    consultation_fee := "₹700", experience := "44 years" },
  { id := 12, name := "Dr. P Venu Madhavi",
    specialization := "Endocrinologist",
    expertise := ["Diabetes Symptoms", "Diabetes", "Hormonal Issues", "Thyroid"],
    location := "CARE Hospitals, Visakhapatnam",
    contact := "040-68106529", availability := "Mon-Sat: 10AM-5PM",
    consultation_fee := "₹650", experience := "12 years" },
  { id := 13, name := "Dr. Ramya Varada",
    specialization := "Endocrinologist",
    expertise := ["Diabetes Symptoms", "Diabetes", "Hormonal Issues", "Thyroid"],
    location := "Apollo Health City, Visakhapatnam",
    contact := "Not Available", availability := "Mon-Sat: 9AM-5PM",
    consultation_fee := "₹700", experience := "18 years" },
  { id := 14, name := "Dr. K.A.V. Subrahmanyam",
    specialization := "Endocrinologist",
    expertise := ["Diabetes Symptoms", "Diabetes", "Hormonal Issues", "Thyroid"],
    location := "Visakha Diabetes & Endocrine Centre, Visakhapatnam",
    contact := "Not Available", availability := "Mon-Sat: 9AM-6PM",
    consultation_fee := "₹800", experience := "39 years" },
  { id := 15, name := "Dr. Jayanthy Ramesh",
    specialization := "Endocrinologist",
    expertise := ["Diabetes Symptoms", "Diabetes", "Hormonal Issues", "Thyroid"],
    location := "Sai's Institute of Endocrinology, Visakhapatnam",
    contact := "Not Available", availability := "Mon-Sat: 10AM-5PM",
    consultation_fee := "₹650", experience := "27 years" },
  { id := 16, name := "Dr. B. Vivekananda",
    specialization := "Endocrinologist",
    expertise := ["Diabetes Symptoms", "Diabetes", "Hormonal Issues", "Thyroid"],
    location := "Visakha Diabetes & Endocrine Centre, Visakhapatnam",
    contact := "Not Available", availability := "Mon-Sat: 9AM-5PM",
    consultation_fee := "₹600", experience := "16 years" },
  { id := 17, name := "Dr. Deepthi Florence",
    specialization := "Endocrinologist",
    expertise := ["Diabetes Symptoms", "Diabetes", "Hormonal Issues", "Thyroid"],
    location := "Queen's NRI Hospital, Visakhapatnam",
    contact := "Not Available", availability := "Mon-Sat: 10AM-6PM",
    consultation_fee := "₹550", experience := "8 years" },
  { id := 18, name := "Dr. Nanda Kishore Panigrahi",
    specialization := "Cardiologist",
    expertise := ["Hypertension Symptoms", "Heart Health", "Blood Pressure", "Chest Pain"],
    location := "Apollo Health City, Visakhapatnam",
    contact := "Not Available", availability := "Mon-Sat: 9AM-5PM",
    consultation_fee := "₹800", experience := "25 years" },
  { id := 19, name := "Dr. Ganesh Kasinadhuni",
    specialization := "Interventional Cardiologist",
    expertise := ["Hypertension Symptoms", "Heart Health", "Blood Pressure", "Chest Pain", "Cardiac Interventions"],
    location := "KIMS Hospital, Visakhapatnam",
    contact := "8872804321", availability := "Mon-Sat: 10AM-5PM",
    consultation_fee := "₹750", experience := "10 years" },
  { id := 20, name := "Dr. A Suresh",
    specialization := "Cardiologist",
    expertise := ["Hypertension Symptoms", "Heart Health", "Blood Pressure", "Chest Pain"],
    location := "Medicover Hospitals, Visakhapatnam",
    contact := "Not Available", availability := "Mon-Sat: 9AM-6PM",
    consultation_fee := "₹800", experience := "25 years" },
  { id := 21, name := "Dr. P Siva Satya Subramanyam",
    specialization := "Cardiologist",
    expertise := ["Hypertension Symptoms", "Heart Health", "Blood Pressure", "Chest Pain"],
    location := "Private Clinic, Visakhapatnam",
    contact := "Not Available", availability := "Mon-Sat: 10AM-5PM",
    consultation_fee := "₹700", experience := "19 years" },
  { id := 22, name := "Dr. Narasimha Raju Challapalli",
    specialization := "Cardiologist",
    expertise := ["Hypertension Symptoms", "Heart Health", "Blood Pressure", "Chest Pain"],
    location := "Private Clinic, Visakhapatnam",
    contact := "Not Available", availability := "Mon-Sat: 9AM-5PM",
    consultation_fee := "₹700", experience := "20 years" },
  { id := 23, name := "Dr. K P Ranganayakulu",
    specialization := "Cardiologist",
    expertise := ["Hypertension Symptoms", "Heart Health", "Blood Pressure", "Chest Pain"],
    location := "Private Clinic, Visakhapatnam",
    contact := "Not Available", availability := "Mon-Sat: 9AM-6PM",
    consultation_fee := "₹750", experience := "22 years" },
  { id := 24, name := "Dr. Hemanta Kumar Behera",
    specialization := "Cardiologist",
    expertise := ["Hypertension Symptoms", "Heart Health", "Blood Pressure", "Chest Pain"],
    location := "Medicover Hospitals, Visakhapatnam",
    contact := "Not Available", availability := "Mon-Sat: 9AM-5PM",
    consultation_fee := "₹850", experience := "30 years" },
  { id := 25, name := "Dr. Dibya Kumar Baruah",
    specialization := "Cardiologist",
    expertise := ["Hypertension Symptoms", "Heart Health", "Blood Pressure", "Chest Pain"],
    location := "Apollo Hospitals, Visakhapatnam",
    contact := "Not Available", availability := "Mon-Sat: 10AM-5PM",
    consultation_fee := "₹800", experience := "18 years" },
  { id := 26, name := "Dr. Shashanka Chunduri",
    specialization := "Cardiologist",
    expertise := ["Hypertension Symptoms", "Heart Health", "Blood Pressure", "Chest Pain"],
    location := "Apollo Hospitals, Visakhapatnam",
    contact := "Not Available", availability := "Mon-Sat: 9AM-5PM",
    consultation_fee := "₹700", experience := "12 years" },
  { id := 27, name := "Dr. Sateesh Chandra Alavala",
    specialization := "Pulmonologist",
    expertise := ["Asthma Attack", "Respiratory Issues", "Bronchitis", "Breathing Problems"],
    location := "Vizag Chest Institute, Visakhapatnam",
    contact := "9519595789", availability := "Mon-Sat: 10AM-5PM",
    consultation_fee := "₹600", experience := "12 years" },
  { id := 28, name := "Dr. K. Venkateswara Rao",
    specialization := "Pulmonologist",
    expertise := ["Asthma Attack", "Respiratory Issues", "Bronchitis", "Breathing Problems"],
    location := "Apollo Health City, Visakhapatnam",
    contact := "Not Available", availability := "Mon-Sat: 9AM-5PM",
    consultation_fee := "₹750", experience := "30 years" },
  { id := 29, name := "Dr. Sushmitha",
    specialization := "Pulmonologist",
    expertise := ["Asthma Attack", "Respiratory Issues", "Bronchitis", "Breathing Problems"],
    location := "Vizag Chest Institute, Visakhapatnam",
    contact := "Not Available", availability := "Mon-Sat: 10AM-6PM",
    consultation_fee := "₹500", experience := "8 years" },
  { id := 30, name := "Dr. M. Phanindranath Reddy",
    specialization := "Pulmonologist",
    expertise := ["Asthma Attack", "Respiratory Issues", "Bronchitis", "Breathing Problems"],
    location := "Pinnacle Hospitals, Visakhapatnam",
    contact := "Not Available", availability := "Mon-Sat: 9AM-5PM",
    consultation_fee := "₹600", experience := "13 years" },
  { id := 31, name := "Dr. Konathala Sureendra",
    specialization := "Pulmonologist",
    expertise := ["Asthma Attack", "Respiratory Issues", "Bronchitis", "Breathing Problems"],
    location := "KIMS Hospitals, Visakhapatnam",
    contact := "Not Available", availability := "Mon-Sat: 10AM-5PM",
    consultation_fee := "₹650", experience := "15 years" },
  { id := 32, name := "Dr. Venkatesh Vulli",
    specialization := "Pulmonologist",
    expertise := ["Asthma Attack", "Respiratory Issues", "Bronchitis", "Breathing Problems"],
    location := "Apoorva Hospital, Visakhapatnam",
    contact := "Not Available", availability := "Mon-Sat: 9AM-6PM",
    consultation_fee := "₹450", experience := "5 years" },
  { id := 33, name := "Dr. Gayatri Devi",
    specialization := "Pulmonologist",
    expertise := ["Asthma Attack", "Respiratory Issues", "Bronchitis", "Breathing Problems"],
    location := "Apollo Clinic, Visakhapatnam",
    contact := "Not Available", availability := "Mon-Sat: 10AM-5PM",
    consultation_fee := "₹550", experience := "12 years" },
  { id := 34, name := "Dr. Sunil Kumar R",
    specialization := "Pulmonologist",
    expertise := ["Asthma Attack", "Respiratory Issues", "Bronchitis", "Breathing Problems"],
    location := "Private Clinic, Visakhapatnam",
    contact := "Not Available", availability := "Mon-Sat: 9AM-5PM",
    consultation_fee := "₹600", experience := "25 years" },
  { id := 35, name := "Dr. G. Kishore Babu",
    specialization := "Neurologist",
    expertise := ["Migraine", "Headaches", "Neurological Disorders", "Anxiety Disorder"],
    location := "CARE Hospitals Ramnagar, Visakhapatnam",
    contact := "040-68106529", availability := "Mon-Sat: 10AM-5PM",
    consultation_fee := "₹700", experience := "20 years" },
  { id := 36, name := "Dr. K. Venkateswarlu",
    specialization := "Neurologist",
    expertise := ["Migraine", "Headaches", "Neurological Disorders", "Anxiety Disorder"],
    location := "Medicover Hospitals, Visakhapatnam",
    contact := "Not Available", availability := "Mon-Sat: 9AM-5PM",
    consultation_fee := "₹850", experience := "35 years" },
  { id := 37, name := "Dr. Sailesh Modi",
    specialization := "Neurologist",
    expertise := ["Migraine", "Headaches", "Neurological Disorders", "Anxiety Disorder"],
    location := "KIMS Hospitals, Visakhapatnam",
    contact := "Not Available", availability := "Mon-Sat: 10AM-6PM",
    consultation_fee := "₹650", experience := "12 years" },
  { id := 38, name := "Dr. Rajesh Venkat Indala",
    specialization := "Neurologist",
    expertise := ["Migraine", "Headaches", "Neurological Disorders", "Anxiety Disorder"],
    location := "Apollo Health City, Visakhapatnam",
    contact := "Not Available", availability := "Mon-Sat: 9AM-5PM",
    consultation_fee := "₹700", experience := "10 years" },
  { id := 39, name := "Dr. T Suresh",
    specialization := "Neurologist",
    expertise := ["Migraine", "Headaches", "Neurological Disorders", "Anxiety Disorder"],
    location := "Medicover Hospitals, Visakhapatnam",
    contact := "Not Available", availability := "Mon-Sat: 10AM-5PM",
    consultation_fee := "₹650", experience := "14 years" },
  { id := 40, name := "Dr. Sibasankar Dalai",
    specialization := "Neurologist",
    expertise := ["Migraine", "Headaches", "Neurological Disorders", "Anxiety Disorder"],
    location := "Medicover Hospitals, Visakhapatnam",
    contact := "Not Available", availability := "Mon-Sat: 9AM-6PM",
    consultation_fee := "₹650", experience := "14 years" },
  { id := 41, name := "Dr. R. V. Narayana",
    specialization := "Neurologist",
    expertise := ["Migraine", "Headaches", "Neurological Disorders", "Anxiety Disorder"],
    location := "Seven Hills Hospitals, Visakhapatnam",
    contact := "Not Available", availability := "Mon-Sat: 10AM-5PM",
    consultation_fee := "₹700", experience := "18 years" },
  { id := 42, name := "Dr. Sasi Kiran Attili",
    specialization := "Dermatologist",
    expertise := ["Skin Infection", "Skin Allergies", "Skin Diseases", "Rashes", "Allergies"],
    location := "Visakha Institute of Skin & Allergy, Visakhapatnam",
    contact := "Not Available", availability := "Mon-Sat: 10AM-6PM",
    consultation_fee := "₹600", experience := "22 years" },
  { id := 43, name := "Dr. Tankala Rajkamal",
    specialization := "Dermatologist",
    expertise := ["Skin Infection", "Skin Allergies", "Skin Diseases", "Rashes", "Allergies"],
    location := "CARE Hospitals, Visakhapatnam",
    contact := "Not Available", availability := "Mon-Sat: 9AM-5PM",
    consultation_fee := "₹700", experience := "28 years" },
  { id := 44, name := "Dr. Gopi Chand Dadithota",
    specialization := "Dermatologist",
    expertise := ["Skin Infection", "Skin Allergies", "Skin Diseases", "Rashes", "Allergies"],
    location := "Apollo Clinic, Visakhapatnam",
    contact := "Not Available", availability := "Mon-Sat: 10AM-5PM",
    consultation_fee := "₹650", experience := "25 years" },
  { id := 45, name := "Dr. Swetha Penmetsa",
    specialization := "Dermatologist",
    expertise := ["Skin Infection", "Skin Allergies", "Skin Diseases", "Rashes", "Allergies"],
    location := "Apollo Health City, Visakhapatnam",
    contact := "Not Available", availability := "Mon-Sat: 9AM-5PM",
    consultation_fee := "₹600", experience := "12 years" },
  { id := 46, name := "Dr. K.V.T. Gopal",
    specialization := "Dermatologist",
    expertise := ["Skin Infection", "Skin Allergies", "Skin Diseases", "Rashes", "Allergies"],
    location := "Skin Care Clinic MVP, Visakhapatnam",
    contact := "Not Available", availability := "Mon-Sat: 10AM-6PM",
    consultation_fee := "₹550", experience := "24 years" },
  { id := 47, name := "Dr. Sravanthi Alluri",
    specialization := "Dermatologist",
    expertise := ["Skin Infection", "Skin Allergies", "Skin Diseases", "Rashes", "Allergies"],
    location := "Novaskin Clinic, Visakhapatnam",
    contact := "Not Available", availability := "Mon-Sat: 10AM-5PM",
    consultation_fee := "₹500", experience := "13 years" },
  { id := 48, name := "Dr. R Siri Sandhya Lakshmi",
    specialization := "Dermatologist",
    expertise := ["Skin Infection", "Skin Allergies", "Skin Diseases", "Rashes", "Allergies"],
    location := "Oliva Skin and Hair Clinic, Visakhapatnam",
    contact := "Not Available", availability := "Mon-Sat: 11AM-7PM",
    consultation_fee := "₹500", experience := "9 years" },
  { id := 49, name := "Dr. G. Satyanarayana",
    specialization := "Gastroenterologist",
    expertise := ["Food Poisoning", "Gastroenteritis", "Digestive Issues", "Stomach Problems"],
    location := "CARE Hospitals, Visakhapatnam",
    contact := "040-68106529", availability := "Mon-Sat: 10AM-5PM",
    consultation_fee := "₹650", experience := "16 years" },
  { id := 50, name := "Dr. Baipalli Ramesh",
    specialization := "Surgical Gastroenterologist",
    expertise := ["Food Poisoning", "Gastroenteritis", "Digestive Issues", "Stomach Problems", "GI Surgery"],
    location := "Laparoscopic Center, Visakhapatnam",
    contact := "9701108209", availability := "Mon-Sat: 9AM-6PM",
    consultation_fee := "₹700", experience := "15 years" },
  { id := 51, name := "Dr. A. V. Siva Prasad",
    specialization := "Gastroenterologist",
    expertise := ["Food Poisoning", "Gastroenteritis", "Digestive Issues", "Stomach Problems"],
    location := "Institute of Gastroenterology, Visakhapatnam",
    contact := "Not Available", availability := "Mon-Sat: 9AM-5PM",
    consultation_fee := "₹900", experience := "44 years" },
  { id := 52, name := "Dr. Y. Radha Krishna",
    specialization := "Gastroenterologist",
    expertise := ["Food Poisoning", "Gastroenteritis", "Digestive Issues", "Stomach Problems", "Liver Diseases"],
    location := "Radha Krishna Liver & Gastro Center, Visakhapatnam",
    contact := "Not Available", availability := "Mon-Sat: 10AM-5PM",
    consultation_fee := "₹700", experience := "23 years" },
  { id := 53, name := "Dr. Reddy Sreenivasa Rao",
    specialization := "Gastroenterologist",
    expertise := ["Food Poisoning", "Gastroenteritis", "Digestive Issues", "Stomach Problems"],
    location := "Sri Srinivasa Gastro Centre, Visakhapatnam",
    contact := "Not Available", availability := "Mon-Sat: 9AM-6PM",
    consultation_fee := "₹650", experience := "20 years" },
  { id := 54, name := "Dr. Mohammed Akbar",
    specialization := "Gastroenterologist",
    expertise := ["Food Poisoning", "Gastroenteritis", "Digestive Issues", "Stomach Problems"],
    location := "Life Medical Center, Visakhapatnam",
    contact := "Not Available", availability := "Mon-Sat: 10AM-5PM",
    consultation_fee := "₹600", experience := "24 years" },
  { id := 55, name := "Dr. Viswanath N",
    specialization := "Gastroenterologist",
    expertise := ["Food Poisoning", "Gastroenteritis", "Digestive Issues", "Stomach Problems"],
    location := "Seven Hills Hospitals, Visakhapatnam",
    contact := "Not Available", availability := "Mon-Sat: 9AM-5PM",
    consultation_fee := "₹600", experience := "15 years" },
  { id := 56, name := "Dr. Sridhar Gangavarapu",
    specialization := "Orthopedist",
    expertise := ["Joint Pain", "Bone Disorders", "Arthritis", "Fractures", "Orthopedic Conditions"],
    location := "Medicover Hospitals, Visakhapatnam",
    contact := "Not Available", availability := "Mon-Sat: 10AM-5PM",
    consultation_fee := "₹700", experience := "22 years" },
  { id := 57, name := "Dr. Pratap Reddy A",
    specialization := "Orthopedist",
    expertise := ["Joint Pain", "Bone Disorders", "Arthritis", "Fractures", "Orthopedic Conditions"],
    location := "Medicover Hospitals, Visakhapatnam",
    contact := "Not Available", availability := "Mon-Sat: 9AM-6PM",
    consultation_fee := "₹800", experience := "33 years" },
  { id := 58, name := "Dr. Abdul D Khan",
    specialization := "Orthopedist",
    expertise := ["Joint Pain", "Bone Disorders", "Arthritis", "Fractures", "Orthopedic Conditions"],
    location := "Apollo Health City, Visakhapatnam",
    contact := "Not Available", availability := "Mon-Sat: 9AM-5PM",
    consultation_fee := "₹750", experience := "27 years" },
  { id := 59, name := "Dr. Naveen Palla",
    specialization := "Orthopedist",
    expertise := ["Joint Pain", "Bone Disorders", "Arthritis", "Fractures", "Orthopedic Conditions"],
    location := "Apollo Health City, Visakhapatnam",
    contact := "Not Available", availability := "Mon-Sat: 10AM-5PM",
    consultation_fee := "₹700", experience := "22 years" },
  { id := 60, name := "Dr. Sasibhushana Rao S",
    specialization := "Orthopedist",
    expertise := ["Joint Pain", "Bone Disorders", "Arthritis", "Fractures", "Orthopedic Conditions"],
    location := "Apollo Health City, Visakhapatnam",
    contact := "Not Available", availability := "Mon-Sat: 9AM-5PM",
    consultation_fee := "₹700", experience := "22 years" },
  { id := 61, name := "Dr. B V R N Varma",
    specialization := "Orthopedist",
    expertise := ["Joint Pain", "Bone Disorders", "Arthritis", "Fractures", "Orthopedic Conditions"],
    location := "Rekon Centre, Visakhapatnam",
    contact := "Not Available", availability := "Mon-Sat: 10AM-6PM",
    consultation_fee := "₹750", experience := "27 years" },
  { id := 62, name := "Dr. P S B Hussain",
    specialization := "Orthopedist",
    expertise := ["Joint Pain", "Bone Disorders", "Arthritis", "Fractures", "Orthopedic Conditions", "Trauma"],
    location := "Hussain Ortho And Trauma Care, Visakhapatnam",
    contact := "Not Available", availability := "Mon-Sat: 9AM-5PM",
    consultation_fee := "₹650", experience := "19 years" },
  { id := 63, name := "Dr. Gudla Siva Prasad",
    specialization := "Orthopedist",
    expertise := ["Joint Pain", "Bone Disorders", "Arthritis", "Fractures", "Orthopedic Conditions"],
    location := "Apollo Health City, Visakhapatnam",
    contact := "Not Available", availability := "Mon-Sat: 10AM-5PM",
    consultation_fee := "₹700", experience := "20 years" },
  { id := 64, name := "Dr. Srinivsa Rao",
    specialization := "Orthopedist",
    expertise := ["Joint Pain", "Bone Disorders", "Arthritis", "Fractures", "Orthopedic Conditions"],
    location := "Janani Hospital, Visakhapatnam",
    contact := "Not Available", availability := "Mon-Sat: 9AM-6PM",
    consultation_fee := "₹650", experience := "26 years" }
]

/-- DISEASE_SPECIALIZATION_MAP from src/backend/doctors.py: disease name to candidate specializations. -/
def DISEASE_SPECIALIZATION_MAP : List (String × List String) := [
  ("Common Cold", ["General Physician", "Pulmonologist"]),
  ("Influenza (Flu)", ["General Physician", "Pulmonologist"]),
  ("Allergies", ["Dermatologist", "General Physician", "Pulmonologist"]),
  ("Migraine", ["Neurologist", "General Physician"]),
  ("Food Poisoning", ["Gastroenterologist", "Surgical Gastroenterologist", "General Physician"]),
  ("Gastroenteritis", ["Gastroenterologist", "Surgical Gastroenterologist", "General Physician"]),
  ("Hypertension Symptoms", ["Cardiologist", "Interventional Cardiologist", "General Physician"]),
  ("Diabetes Symptoms", ["Endocrinologist", "Diabetologist", "General Physician"]),
  ("Anxiety Disorder", ["Neurologist", "General Physician"]),
  ("Asthma Attack", ["Pulmonologist", "General Physician"]),
  ("Skin Infection", ["Dermatologist", "General Physician"]),
  ("Urinary Tract Infection", ["General Physician"]),
  ("Joint Pain", ["Orthopedist", "General Physician"]),
  ("Arthritis", ["Orthopedist", "General Physician"])
]

/-- DISEASE_PRECAUTIONS from src/backend/precautions.py: per-disease precaution lists (50 entries, in file order). -/
def DISEASE_PRECAUTIONS : List (String × PrecautionEntry) := [
  ("Common Cold",
   {
    general := [
      "Rest and get adequate sleep to help your body recover",
      "Stay hydrated by drinking plenty of water, herbal tea, and warm fluids",
      "Use a humidifier to ease congestion and soothe irritated nasal passages",
      "Gargle with warm salt water to relieve sore throat"],
    dos := [
      "Wash hands frequently to prevent spreading",
      "Cover mouth and nose when sneezing or coughing",
      "Take over-the-counter medications for symptom relief",
      "Eat nutritious foods rich in vitamins C and zinc"],
    donts := [
      "Don't go to work or school while symptomatic",
      "Avoid close contact with others",
      "Don't smoke or be around secondhand smoke",
      "Avoid alcohol as it can dehydrate you"],
    consult_doctor := [
      "Symptoms persist beyond 10 days",
      "Fever above 103°F (39.4°C)",
      "Difficulty breathing or shortness of breath",
      "Severe headache or sinus pain"] }),
  ("Influenza (Flu)",
   {
    general := [
      "Rest at home and avoid strenuous activities",
      "Stay well-hydrated with water, clear broths, and electrolyte drinks",
      "Use fever-reducing medications as directed",
      "Keep warm and comfortable"],
    dos := [
      "Monitor your temperature regularly",
      "Take antiviral medications if prescribed within 48 hours",
      "Use tissues and dispose of them properly",
      "Isolate yourself from family members if possible"],
    donts := [
      "Don't take antibiotics (flu is viral, not bacterial)",
      "Avoid going to public places",
      "Don't ignore worsening symptoms",
      "Avoid giving aspirin to children (risk of Reye's syndrome)"],
    consult_doctor := [
      "Difficulty breathing or chest pain",
      "Persistent vomiting",
      "Symptoms that improve then return with fever and worse cough",
      "Confusion or sudden dizziness"] }),
  ("Bronchitis",
   {
    general := [
      "Get plenty of rest to help your body fight the infection",
      "Drink lots of fluids to thin mucus and prevent dehydration",
      "Use a humidifier or steam to loosen chest congestion",
      "Avoid irritants like smoke, dust, and strong fumes"],
    dos := [
      "Take prescribed medications as directed",
      "Use honey in warm water to soothe cough (adults only)",
      "Sleep with your head elevated to ease breathing",
      "Practice deep breathing exercises"],
    donts := [
      "Don't smoke or vape",
      "Avoid cold, dry air which irritates airways",
      "Don't suppress a productive cough completely",
      "Avoid dairy if it increases mucus production for you"],
    consult_doctor := [
      "Cough lasts more than 3 weeks",
      "You're coughing up blood or rust-colored mucus",
      "Fever higher than 100.4°F (38°C) for more than 3 days",
      "You have difficulty breathing or wheezing"] }),
  ("Pneumonia",
   {
    general := [
      "Get plenty of rest - your body needs energy to fight infection",
      "Drink plenty of fluids to stay hydrated and loosen mucus",
      "Take all prescribed medications exactly as directed",
      "Use a cool-mist humidifier to ease breathing"],
    dos := [
      "Complete the full course of antibiotics if prescribed",
      "Monitor your temperature and oxygen levels if possible",
      "Practice deep breathing and coughing exercises",
      "Get a follow-up chest X-ray as recommended"],
    donts := [
      "Don't smoke or be around smokers",
      "Avoid alcohol as it weakens immune response",
      "Don't skip doses of prescribed medications",
      "Avoid crowded places until fully recovered"],
    consult_doctor := [
      "Difficulty breathing or rapid breathing",
      "Chest pain that worsens when breathing",
      "High fever that doesn't respond to medication",
      "Confusion or altered mental state"] }),
  ("Asthma",
   {
    general := [
      "Keep your rescue inhaler with you at all times",
      "Identify and avoid your asthma triggers",
      "Follow your asthma action plan consistently",
      "Monitor your peak flow readings regularly"],
    dos := [
      "Take controller medications daily as prescribed",
      "Use spacer devices with inhalers for better delivery",
      "Get annual flu vaccinations",
      "Exercise regularly with proper warm-up"],
    donts := [
      "Don't ignore early warning signs of an attack",
      "Avoid smoking and secondhand smoke",
      "Don't exercise outdoors when air quality is poor",
      "Never stop controller medications without doctor's advice"],
    consult_doctor := [
      "Rescue inhaler doesn't provide relief",
      "Symptoms worsen rapidly or frequently",
      "You need rescue inhaler more than twice a week",
      "Lips or fingernails turn blue"] }),
  ("Tuberculosis",
   {
    general := [
      "Take all medications exactly as prescribed for the full duration",
      "Cover mouth when coughing and dispose of tissues properly",
      "Ensure good ventilation in living spaces",
      "Wear a mask when around others during infectious period"],
    dos := [
      "Attend all follow-up appointments for monitoring",
      "Eat a nutritious diet to support recovery",
      "Inform close contacts so they can get tested",
      "Get adequate rest during treatment"],
    donts := [
      "Never skip doses or stop treatment early",
      "Avoid alcohol as it affects liver during TB treatment",
      "Don't go to work/school until cleared by doctor",
      "Avoid sharing personal items with others"],
    consult_doctor := [
      "You experience side effects from medications",
      "Symptoms worsen or don't improve after 2-3 weeks",
      "You develop new symptoms like vision changes",
      "You have difficulty taking medications regularly"] }),
  ("Sinusitis",
   {
    general := [
      "Use saline nasal spray or irrigation to clear sinuses",
      "Apply warm compresses to face for pain relief",
      "Stay hydrated to thin mucus secretions",
      "Sleep with head elevated to help drainage"],
    dos := [
      "Use a humidifier to keep nasal passages moist",
      "Inhale steam from a bowl of hot water",
      "Take over-the-counter decongestants as directed",
      "Blow nose gently, one nostril at a time"],
    donts := [
      "Don't use decongestant sprays for more than 3 days",
      "Avoid flying or diving with sinus congestion",
      "Don't smoke or be exposed to smoke",
      "Avoid very dry environments"],
    consult_doctor := [
      "Symptoms last more than 10 days",
      "Severe facial pain or headache",
      "Fever higher than 102°F (39°C)",
      "Symptoms return after initial improvement"] }),
  ("Allergic Rhinitis",
   {
    general := [
      "Identify and avoid your allergy triggers",
      "Keep windows closed during high pollen seasons",
      "Use air purifiers with HEPA filters indoors",
      "Shower after being outdoors to remove allergens"],
    dos := [
      "Take antihistamines as recommended",
      "Wear sunglasses outdoors to protect eyes",
      "Wash bedding weekly in hot water",
      "Check pollen forecasts before outdoor activities"],
    donts := [
      "Don't dry clothes outdoors during allergy season",
      "Avoid rubbing your eyes",
      "Don't keep windows open at night",
      "Avoid mowing grass or raking leaves"],
    consult_doctor := [
      "Over-the-counter medications don't provide relief",
      "Symptoms significantly affect daily life or sleep",
      "You experience wheezing or difficulty breathing",
      "You want to discuss allergy testing or immunotherapy"] }),
  ("Food Poisoning",
   {
    general := [
      "Let your stomach settle - avoid eating for a few hours",
      "Sip small amounts of water or clear fluids frequently",
      "Gradually introduce bland foods (BRAT diet: bananas, rice, applesauce, toast)",
      "Rest and allow your body to recover"],
    dos := [
      "Stay hydrated with oral rehydration solutions",
      "Wash hands thoroughly before handling food",
      "Monitor for signs of dehydration",
      "Keep track of what you ate to identify the source"],
    donts := [
      "Don't eat dairy, fatty, or spicy foods until recovered",
      "Avoid caffeine and alcohol",
      "Don't take anti-diarrheal medications initially",
      "Don't prepare food for others while symptomatic"],
    consult_doctor := [
      "Symptoms last more than 3 days",
      "Blood in stool or vomit",
      "Signs of severe dehydration (dizziness, dark urine)",
      "High fever above 101.5°F (38.6°C)"] }),
  ("Gastroenteritis",
   {
    general := [
      "Focus on staying hydrated - small, frequent sips",
      "Rest as much as possible",
      "Gradually reintroduce bland foods when able",
      "Practice good hygiene to prevent spreading"],
    dos := [
      "Drink oral rehydration solutions or electrolyte drinks",
      "Eat small portions of easy-to-digest foods",
      "Wash hands frequently, especially after bathroom",
      "Disinfect commonly touched surfaces"],
    donts := [
      "Don't drink fruit juices or sugary drinks",
      "Avoid dairy products temporarily",
      "Don't share towels or utensils",
      "Don't return to work for 48 hours after symptoms stop"],
    consult_doctor := [
      "Unable to keep any fluids down for 24 hours",
      "Diarrhea lasts more than 3 days",
      "Signs of severe dehydration",
      "Blood in stool or severe abdominal pain"] }),
  ("Acid Reflux (GERD)",
   {
    general := [
      "Eat smaller, more frequent meals",
      "Avoid lying down for 3 hours after eating",
      "Elevate the head of your bed by 6-8 inches",
      "Maintain a healthy weight"],
    dos := [
      "Chew food thoroughly and eat slowly",
      "Wear loose-fitting clothes",
      "Keep a food diary to identify triggers",
      "Take prescribed medications as directed"],
    donts := [
      "Don't eat spicy, acidic, or fatty foods",
      "Avoid alcohol and caffeine",
      "Don't smoke - it weakens the lower esophageal sphincter",
      "Avoid eating late at night"],
    consult_doctor := [
      "Symptoms occur more than twice a week",
      "Difficulty swallowing or painful swallowing",
      "Unexplained weight loss",
      "Chest pain (to rule out heart issues)"] }),
  ("Peptic Ulcer",
   {
    general := [
      "Take prescribed medications exactly as directed",
      "Eat regular meals at consistent times",
      "Manage stress through relaxation techniques",
      "Avoid foods that worsen your symptoms"],
    dos := [
      "Complete the full course of antibiotics if prescribed",
      "Eat a balanced diet with adequate fiber",
      "Stay well-hydrated with water",
      "Get adequate sleep"],
    donts := [
      "Don't take NSAIDs like aspirin or ibuprofen",
      "Avoid alcohol completely during healing",
      "Don't smoke - it delays healing",
      "Don't skip meals or overeat"],
    consult_doctor := [
      "Sharp, sudden abdominal pain",
      "Vomiting blood or dark, tarry stools",
      "Unexplained weight loss",
      "Symptoms don't improve with treatment"] }),
  ("Irritable Bowel Syndrome",
   {
    general := [
      "Identify and avoid your trigger foods",
      "Eat regular meals and don't skip meals",
      "Manage stress through relaxation techniques",
      "Exercise regularly to improve bowel function"],
    dos := [
      "Keep a food and symptom diary",
      "Eat slowly and chew food thoroughly",
      "Drink plenty of water",
      "Consider probiotics after consulting doctor"],
    donts := [
      "Don't eat large meals",
      "Avoid carbonated drinks and artificial sweeteners",
      "Don't eat too much fiber too quickly",
      "Avoid caffeine and alcohol if they trigger symptoms"],
    consult_doctor := [
      "Symptoms significantly impact quality of life",
      "Unexplained weight loss",
      "Blood in stool",
      "Symptoms started after age 50"] }),
  ("Appendicitis",
   {
    general := [
      "Seek immediate medical attention - this is a medical emergency",
      "Do not eat or drink anything",
      "Lie still and avoid moving around",
      "Do not take pain medications until evaluated"],
    dos := [
      "Call emergency services or go to ER immediately",
      "Note when pain started and its progression",
      "Stay calm and breathe normally",
      "Have someone drive you to the hospital"],
    donts := [
      "Don't apply heat to the abdomen",
      "Don't take laxatives or enemas",
      "Don't ignore the pain hoping it will pass",
      "Don't eat or drink anything"],
    consult_doctor := [
      "Any sudden severe abdominal pain",
      "Pain that starts near navel and moves to lower right",
      "Pain worsens with movement, coughing, or walking",
      "Fever, nausea, and loss of appetite with pain"] }),
  ("Malaria",
   {
    general := [
      "Take all antimalarial medications exactly as prescribed",
      "Rest and stay well-hydrated",
      "Monitor temperature regularly",
      "Use mosquito nets while recovering"],
    dos := [
      "Complete the full course of treatment",
      "Eat light, nutritious meals",
      "Take fever-reducing medications as directed",
      "Report any side effects to your doctor"],
    donts := [
      "Don't skip doses of antimalarial medication",
      "Avoid mosquito bites to prevent reinfection",
      "Don't donate blood for at least 3 years after infection",
      "Don't take any additional medications without doctor's approval"],
    consult_doctor := [
      "High fever that doesn't respond to treatment",
      "Severe headache or confusion",
      "Difficulty breathing",
      "Dark or decreased urine output"] }),
  ("Dengue",
   {
    general := [
      "Rest completely and avoid physical exertion",
      "Stay well-hydrated with water, ORS, and coconut water",
      "Monitor platelet count regularly",
      "Take only acetaminophen/paracetamol for fever"],
    dos := [
      "Drink at least 3 liters of fluids daily",
      "Eat nutritious, easily digestible foods",
      "Use mosquito repellent to prevent spreading",
      "Watch for warning signs of severe dengue"],
    donts := [
      "Don't take aspirin or ibuprofen (increases bleeding risk)",
      "Avoid dark-colored drinks to monitor vomiting",
      "Don't ignore warning signs like severe abdominal pain",
      "Avoid getting bitten by mosquitoes"],
    consult_doctor := [
      "Severe abdominal pain or persistent vomiting",
      "Bleeding gums or blood in vomit/stool",
      "Difficulty breathing or fatigue",
      "Platelet count drops significantly"] }),
  ("Typhoid",
   {
    general := [
      "Take antibiotics exactly as prescribed for full duration",
      "Rest and avoid strenuous activities",
      "Drink plenty of safe, clean water",
      "Eat small, frequent meals"],
    dos := [
      "Practice strict hand hygiene",
      "Eat freshly cooked, hot foods",
      "Get follow-up stool cultures as recommended",
      "Inform close contacts to get tested"],
    donts := [
      "Don't handle food for others until cleared",
      "Avoid raw fruits and vegetables unless self-peeled",
      "Don't stop antibiotics early even if feeling better",
      "Avoid ice and drinks that may be contaminated"],
    consult_doctor := [
      "High fever persists despite treatment",
      "Severe abdominal pain or distension",
      "Blood in stool",
      "Confusion or altered consciousness"] }),
  ("Chickenpox",
   {
    general := [
      "Stay home and isolate until all blisters have crusted over",
      "Keep skin clean and dry",
      "Keep fingernails short to prevent scratching damage",
      "Take lukewarm baths with colloidal oatmeal"],
    dos := [
      "Apply calamine lotion to relieve itching",
      "Take antihistamines for itch relief",
      "Wear loose, soft clothing",
      "Stay hydrated and eat soft foods"],
    donts := [
      "Don't scratch the blisters (causes scarring and infection)",
      "Don't give aspirin to children (Reye's syndrome risk)",
      "Don't go to school/work until fully crusted",
      "Avoid contact with pregnant women and immunocompromised people"],
    consult_doctor := [
      "High fever lasting more than 4 days",
      "Rash spreads to eyes",
      "Rash becomes very red, warm, or tender",
      "Difficulty breathing or confusion"] }),
  ("Measles",
   {
    general := [
      "Isolate completely until 4 days after rash appears",
      "Rest and stay in a dimly lit room (light sensitivity)",
      "Stay well-hydrated with fluids",
      "Take fever-reducing medications as directed"],
    dos := [
      "Take vitamin A supplements if recommended",
      "Use a humidifier for cough relief",
      "Gently clean eyes with warm water",
      "Eat soft, nutritious foods"],
    donts := [
      "Don't go to public places while infectious",
      "Avoid contact with unvaccinated individuals",
      "Don't rub eyes",
      "Don't ignore high fever or breathing difficulties"],
    consult_doctor := [
      "Fever returns after initially improving",
      "Difficulty breathing or rapid breathing",
      "Earache or hearing problems",
      "Seizures or altered consciousness"] }),
  ("Mumps",
   {
    general := [
      "Rest and stay home until swelling subsides",
      "Apply warm or cold compresses to swollen glands",
      "Stay well-hydrated with non-acidic fluids",
      "Eat soft foods that don't require much chewing"],
    dos := [
      "Take pain relievers as directed for discomfort",
      "Gargle with warm salt water",
      "Get plenty of sleep",
      "Apply ice packs to swollen areas"],
    donts := [
      "Don't eat sour or acidic foods (increases saliva and pain)",
      "Avoid contact with others for 5 days after swelling begins",
      "Don't share eating utensils",
      "Don't return to school/work until fully recovered"],
    consult_doctor := [
      "Severe headache or neck stiffness",
      "Testicular pain and swelling in males",
      "Abdominal pain (possible pancreatic involvement)",
      "Hearing loss"] }),
  ("Hepatitis",
   {
    general := [
      "Rest and avoid strenuous activities",
      "Eat a balanced, nutritious diet",
      "Avoid alcohol completely",
      "Take prescribed medications as directed"],
    dos := [
      "Stay well-hydrated",
      "Eat small, frequent meals if nauseous",
      "Practice good hygiene to prevent spread",
      "Get adequate sleep"],
    donts := [
      "Don't drink alcohol - it damages the liver further",
      "Don't take over-the-counter medications without asking doctor",
      "Don't share personal items like razors or toothbrushes",
      "Avoid fatty and processed foods"],
    consult_doctor := [
      "Severe abdominal pain",
      "Yellowing of skin or eyes increases",
      "Dark urine or pale stools",
      "Confusion or drowsiness"] }),
  ("Conjunctivitis",
   {
    general := [
      "Practice strict hand hygiene",
      "Clean eyes gently with warm water",
      "Use separate towels and pillowcases",
      "Avoid touching or rubbing eyes"],
    dos := [
      "Apply prescribed eye drops as directed",
      "Use clean, warm compresses for comfort",
      "Remove contact lenses and use glasses",
      "Wash hands before and after touching eyes"],
    donts := [
      "Don't share eye makeup, towels, or pillows",
      "Don't wear contact lenses until fully healed",
      "Don't touch eyes with unwashed hands",
      "Avoid swimming pools until infection clears"],
    consult_doctor := [
      "Vision changes or severe eye pain",
      "Sensitivity to light",
      "Symptoms worsen or don't improve in 24-48 hours",
      "Thick discharge that keeps eyes from opening"] }),
  ("Eczema",
   {
    general := [
      "Keep skin moisturized with thick creams or ointments",
      "Take lukewarm (not hot) baths or showers",
      "Identify and avoid your triggers",
      "Wear soft, breathable fabrics like cotton"],
    dos := [
      "Apply moisturizer within 3 minutes of bathing",
      "Use fragrance-free products",
      "Keep fingernails short to minimize scratching damage",
      "Use a humidifier in dry environments"],
    donts := [
      "Don't take hot showers or baths",
      "Avoid harsh soaps and detergents",
      "Don't scratch - it worsens the condition",
      "Avoid wool and synthetic fabrics"],
    consult_doctor := [
      "Skin becomes very red, hot, or painful",
      "Signs of infection (oozing, crusting, fever)",
      "Eczema doesn't respond to treatment",
      "Sleep is significantly affected"] }),
  ("Psoriasis",
   {
    general := [
      "Keep skin moisturized regularly",
      "Get moderate sun exposure (but don't burn)",
      "Manage stress through relaxation techniques",
      "Avoid skin injuries (cuts, scrapes, sunburns)"],
    dos := [
      "Take prescribed medications consistently",
      "Use medicated shampoos for scalp psoriasis",
      "Keep a symptom diary to identify triggers",
      "Soak in lukewarm baths with bath oils"],
    donts := [
      "Don't pick or scratch plaques",
      "Avoid alcohol - it can trigger flares",
      "Don't smoke - it worsens symptoms",
      "Avoid very hot water"],
    consult_doctor := [
      "Psoriasis covers large areas of body",
      "Joint pain or stiffness develops",
      "Current treatment isn't working",
      "Significant impact on quality of life"] }),
  ("Acne",
   {
    general := [
      "Wash face twice daily with gentle cleanser",
      "Keep hands off your face",
      "Use non-comedogenic skincare products",
      "Stay hydrated and eat a balanced diet"],
    dos := [
      "Use prescribed topical treatments consistently",
      "Change pillowcases frequently",
      "Remove makeup before bed",
      "Be patient - treatments take 6-8 weeks to work"],
    donts := [
      "Don't pop or squeeze pimples (causes scarring)",
      "Avoid heavy, oil-based makeup",
      "Don't over-wash or scrub face harshly",
      "Don't touch your face frequently"],
    consult_doctor := [
      "Acne is severe or widespread",
      "Over-the-counter treatments don't help",
      "Acne is leaving scars",
      "Acne is affecting self-esteem significantly"] }),
  ("Dermatitis",
   {
    general := [
      "Identify and avoid irritants or allergens",
      "Keep affected areas moisturized",
      "Avoid scratching the affected areas",
      "Wear protective gloves when using chemicals"],
    dos := [
      "Apply prescribed creams or ointments",
      "Use fragrance-free, hypoallergenic products",
      "Pat skin dry instead of rubbing",
      "Wear loose, cotton clothing"],
    donts := [
      "Don't use harsh soaps or detergents",
      "Avoid very hot water",
      "Don't wear jewelry that irritates skin",
      "Avoid prolonged exposure to water"],
    consult_doctor := [
      "Rash spreads or becomes severely infected",
      "Pain, swelling, or fever develops",
      "Home treatments aren't effective",
      "You can't identify the cause"] }),
  ("Fungal Infection",
   {
    general := [
      "Keep affected areas clean and dry",
      "Apply antifungal medications as directed",
      "Avoid sharing personal items",
      "Wear loose, breathable clothing"],
    dos := [
      "Complete full course of antifungal treatment",
      "Change socks and underwear daily",
      "Dry thoroughly after bathing, especially between toes",
      "Wash clothes and towels in hot water"],
    donts := [
      "Don't walk barefoot in public areas",
      "Avoid tight, non-breathable shoes",
      "Don't share towels, razors, or combs",
      "Don't stop treatment when symptoms improve"],
    consult_doctor := [
      "Infection doesn't improve after 2 weeks of treatment",
      "Infection spreads or returns",
      "You have diabetes or weakened immune system",
      "Redness, swelling, or pus develops"] }),
  ("Hypertension",
   {
    general := [
      "Monitor blood pressure regularly at home",
      "Reduce sodium intake in your diet",
      "Engage in regular moderate exercise",
      "Manage stress through relaxation techniques"],
    dos := [
      "Take prescribed medications as directed",
      "Eat a DASH diet (fruits, vegetables, whole grains)",
      "Maintain a healthy weight",
      "Limit alcohol consumption"],
    donts := [
      "Don't skip medications without doctor's advice",
      "Avoid processed and high-sodium foods",
      "Don't smoke or use tobacco products",
      "Don't ignore symptoms like severe headaches"],
    consult_doctor := [
      "Blood pressure consistently above 140/90 mmHg",
      "Severe headache, chest pain, or vision changes",
      "Numbness or weakness in limbs",
      "Difficulty breathing"] }),
  ("Heart Disease",
   {
    general := [
      "Follow your cardiologist's treatment plan exactly",
      "Take all medications as prescribed",
      "Monitor symptoms and report changes",
      "Make heart-healthy lifestyle changes"],
    dos := [
      "Exercise as recommended by your doctor",
      "Eat a heart-healthy diet low in saturated fats",
      "Maintain a healthy weight",
      "Manage stress and get adequate sleep"],
    donts := [
      "Don't smoke or use tobacco in any form",
      "Avoid excessive alcohol consumption",
      "Don't ignore warning signs",
      "Don't engage in strenuous activity without guidance"],
    consult_doctor := [
      "Chest pain or discomfort",
      "Shortness of breath, especially during rest",
      "Swelling in legs, ankles, or feet",
      "Rapid or irregular heartbeat"] }),
  ("Anemia",
   {
    general := [
      "Eat iron-rich foods like spinach, red meat, and beans",
      "Take iron supplements if prescribed (with vitamin C)",
      "Get adequate rest as your body builds blood cells",
      "Stay hydrated"],
    dos := [
      "Pair iron-rich foods with vitamin C for better absorption",
      "Cook in cast iron pans to increase iron content",
      "Eat fortified cereals and breads",
      "Get regular blood tests to monitor levels"],
    donts := [
      "Don't drink tea or coffee with iron-rich meals",
      "Avoid calcium supplements with iron tablets",
      "Don't ignore symptoms of fatigue",
      "Avoid excessive consumption of dairy with iron-rich foods"],
    consult_doctor := [
      "Extreme fatigue or weakness",
      "Shortness of breath with minimal activity",
      "Rapid heartbeat or chest pain",
      "Pale skin, dizziness, or cold hands/feet"] }),
  ("Diabetes",
   {
    general := [
      "Monitor blood sugar levels as recommended",
      "Follow a balanced, low-glycemic diet",
      "Stay physically active with regular exercise",
      "Take medications or insulin as prescribed"],
    dos := [
      "Check feet daily for cuts, blisters, or sores",
      "Carry fast-acting glucose for low blood sugar",
      "Wear medical identification",
      "Attend all medical appointments"],
    donts := [
      "Don't skip meals or medications",
      "Avoid sugary drinks and excessive carbohydrates",
      "Don't walk barefoot to prevent foot injuries",
      "Don't ignore symptoms of high or low blood sugar"],
    consult_doctor := [
      "Blood sugar frequently out of target range",
      "Signs of hypoglycemia or hyperglycemia",
      "Slow-healing wounds or frequent infections",
      "Numbness or tingling in hands or feet"] }),
  ("Hyperthyroidism",
   {
    general := [
      "Take prescribed medications consistently",
      "Get adequate rest despite feeling energetic",
      "Protect eyes if experiencing thyroid eye disease",
      "Manage stress as it can worsen symptoms"],
    dos := [
      "Eat a well-balanced diet with adequate calcium",
      "Attend all follow-up appointments",
      "Exercise moderately as tolerated",
      "Keep regular meal and sleep schedules"],
    donts := [
      "Don't consume excessive iodine or kelp",
      "Avoid caffeine and stimulants",
      "Don't skip medications",
      "Avoid smoking - worsens eye complications"],
    consult_doctor := [
      "Rapid or irregular heartbeat",
      "Unexplained weight loss despite eating well",
      "Eye problems (bulging, irritation, vision changes)",
      "Severe anxiety or tremors"] }),
  ("Hypothyroidism",
   {
    general := [
      "Take thyroid medication on empty stomach, same time daily",
      "Get regular thyroid function tests",
      "Eat a balanced diet with adequate iodine",
      "Exercise regularly to boost metabolism"],
    dos := [
      "Take medication 30-60 minutes before breakfast",
      "Wait 4 hours before taking calcium or iron supplements",
      "Stay consistent with medication timing",
      "Monitor for symptom changes"],
    donts := [
      "Don't skip doses of thyroid medication",
      "Avoid soy products near medication time",
      "Don't take with coffee - wait 30 minutes",
      "Don't stop medication even if feeling better"],
    consult_doctor := [
      "Symptoms worsen despite treatment",
      "Heart palpitations or chest pain",
      "Severe fatigue or depression",
      "Significant weight changes"] }),
  ("Migraine",
   {
    general := [
      "Rest in a quiet, dark room during episodes",
      "Apply cold or warm compresses to head/neck",
      "Stay hydrated and maintain regular meals",
      "Practice stress-reduction techniques"],
    dos := [
      "Keep a headache diary to identify triggers",
      "Take medications at first sign of migraine",
      "Maintain regular sleep schedule",
      "Practice relaxation exercises daily"],
    donts := [
      "Don't skip meals or fast",
      "Avoid excessive caffeine or sudden withdrawal",
      "Don't overuse pain medications",
      "Avoid bright lights and loud noises during episodes"],
    consult_doctor := [
      "Migraines occur more than 15 days per month",
      "Pain medications don't provide relief",
      "New or different headache patterns",
      "Headache with fever, stiff neck, or confusion"] }),
  ("Tension Headache",
   {
    general := [
      "Apply heat or cold to head and neck muscles",
      "Practice good posture throughout the day",
      "Take regular breaks from screens",
      "Manage stress through relaxation techniques"],
    dos := [
      "Massage tense muscles in shoulders and neck",
      "Get regular sleep on a consistent schedule",
      "Stay hydrated throughout the day",
      "Exercise regularly to reduce tension"],
    donts := [
      "Don't clench jaw or grind teeth",
      "Avoid overuse of pain medications",
      "Don't skip meals",
      "Avoid excessive screen time without breaks"],
    consult_doctor := [
      "Headaches occur more than 15 days per month",
      "Over-the-counter medications don't help",
      "Headache pattern changes suddenly",
      "Headaches affect daily activities"] }),
  ("Vertigo",
   {
    general := [
      "Move slowly and carefully to prevent falls",
      "Sit or lie down immediately when symptoms start",
      "Keep your head still during episodes",
      "Focus on a fixed point to help with balance"],
    dos := [
      "Use good lighting to help with balance",
      "Use handrails on stairs",
      "Do prescribed vestibular exercises",
      "Sleep with head slightly elevated"],
    donts := [
      "Don't make sudden head movements",
      "Avoid driving during episodes",
      "Don't climb ladders or work at heights",
      "Avoid alcohol and caffeine"],
    consult_doctor := [
      "Vertigo is accompanied by hearing loss",
      "Symptoms are severe or frequent",
      "You experience numbness, weakness, or vision changes",
      "Vertigo doesn't improve with treatment"] }),
  ("Epilepsy",
   {
    general := [
      "Take anti-seizure medications consistently",
      "Get adequate, regular sleep",
      "Avoid known seizure triggers",
      "Wear medical identification"],
    dos := [
      "Keep a seizure diary",
      "Inform family and friends about first aid",
      "Take medications at the same time daily",
      "Stay well-hydrated"],
    donts := [
      "Don't stop medications without doctor's guidance",
      "Avoid excessive alcohol consumption",
      "Don't drive until cleared by doctor",
      "Avoid swimming or bathing alone"],
    consult_doctor := [
      "Seizure frequency increases",
      "New types of seizures occur",
      "Medication side effects are troublesome",
      "Seizure lasts more than 5 minutes (emergency)"] }),
  ("Anxiety Disorder",
   {
    general := [
      "Practice deep breathing and mindfulness",
      "Maintain a regular sleep schedule",
      "Engage in regular physical activity",
      "Limit caffeine and alcohol"],
    dos := [
      "Talk to trusted friends or family",
      "Practice progressive muscle relaxation",
      "Keep a journal to track triggers",
      "Consider professional therapy"],
    donts := [
      "Don't isolate yourself from support",
      "Avoid excessive caffeine and stimulants",
      "Don't rely on alcohol or substances to cope",
      "Don't dismiss your feelings"],
    consult_doctor := [
      "Anxiety significantly interferes with daily life",
      "You experience panic attacks",
      "Physical symptoms persist",
      "You have thoughts of self-harm"] }),
  ("Depression",
   {
    general := [
      "Maintain a daily routine as much as possible",
      "Get regular physical activity, even brief walks",
      "Stay connected with supportive people",
      "Practice good sleep hygiene"],
    dos := [
      "Set small, achievable daily goals",
      "Eat regular, nutritious meals",
      "Consider therapy or counseling",
      "Take prescribed medications as directed"],
    donts := [
      "Don't isolate yourself",
      "Avoid alcohol and recreational drugs",
      "Don't make major life decisions while depressed",
      "Don't be too hard on yourself"],
    consult_doctor := [
      "Symptoms last more than two weeks",
      "Daily functioning is significantly impaired",
      "You have thoughts of suicide or self-harm",
      "Symptoms worsen despite treatment"] }),
  ("Insomnia",
   {
    general := [
      "Maintain a consistent sleep schedule",
      "Create a relaxing bedtime routine",
      "Make your bedroom dark, quiet, and cool",
      "Limit screen time before bed"],
    dos := [
      "Exercise regularly, but not close to bedtime",
      "Use bed only for sleep and intimacy",
      "Practice relaxation techniques before bed",
      "Get exposure to natural light during the day"],
    donts := [
      "Don't consume caffeine after noon",
      "Avoid long daytime naps",
      "Don't watch TV or use phones in bed",
      "Don't lie in bed awake for long periods"],
    consult_doctor := [
      "Insomnia persists for more than 3 weeks",
      "Sleep problems affect daytime functioning",
      "You suspect a sleep disorder like sleep apnea",
      "Other health conditions may be contributing"] }),
  ("Arthritis",
   {
    general := [
      "Stay active with gentle, low-impact exercises",
      "Apply heat or cold therapy for pain relief",
      "Maintain a healthy weight to reduce joint stress",
      "Protect joints during daily activities"],
    dos := [
      "Take medications as prescribed",
      "Do stretching exercises daily",
      "Use assistive devices if needed",
      "Balance activity with rest"],
    donts := [
      "Don't remain sedentary for too long",
      "Avoid repetitive stress on affected joints",
      "Don't ignore increasing pain",
      "Avoid high-impact activities"],
    consult_doctor := [
      "Joint pain or swelling is severe",
      "You develop a fever with joint symptoms",
      "Joint becomes suddenly red and hot",
      "Current medications aren't controlling symptoms"] }),
  ("Osteoporosis",
   {
    general := [
      "Get adequate calcium and vitamin D",
      "Engage in weight-bearing exercises",
      "Prevent falls with home safety measures",
      "Take prescribed medications as directed"],
    dos := [
      "Eat calcium-rich foods like dairy and leafy greens",
      "Get regular bone density tests",
      "Do strength training exercises",
      "Get safe sun exposure for vitamin D"],
    donts := [
      "Don't smoke - it weakens bones",
      "Avoid excessive alcohol",
      "Don't engage in high-risk activities",
      "Avoid bending and twisting spine"],
    consult_doctor := [
      "You experience a fracture from minor injury",
      "Severe back pain develops suddenly",
      "Height loss is noticeable",
      "You have risk factors for osteoporosis"] }),
  ("Muscle Strain",
   {
    general := [
      "Rest the injured muscle",
      "Apply ice for first 48-72 hours",
      "Use compression to reduce swelling",
      "Elevate the injured area"],
    dos := [
      "Take over-the-counter pain relievers",
      "Gradually return to activity as pain allows",
      "Do gentle stretching once acute pain subsides",
      "Use heat therapy after initial swelling goes down"],
    donts := [
      "Don't continue activities that cause pain",
      "Avoid heat application in first 48 hours",
      "Don't return to full activity too quickly",
      "Avoid massage during acute phase"],
    consult_doctor := [
      "Severe pain or swelling",
      "Inability to use the affected muscle",
      "Pain doesn't improve after a week",
      "You heard a 'pop' at time of injury"] }),
  ("Urinary Tract Infection",
   {
    general := [
      "Drink plenty of water to flush bacteria",
      "Urinate frequently - don't hold it",
      "Use a heating pad on abdomen for comfort",
      "Complete prescribed antibiotic course"],
    dos := [
      "Wipe front to back after using bathroom",
      "Urinate before and after sexual activity",
      "Wear breathable cotton underwear",
      "Take cranberry supplements if helpful"],
    donts := [
      "Don't use scented products in genital area",
      "Avoid caffeine and alcohol until recovered",
      "Don't hold urine for long periods",
      "Don't stop antibiotics early"],
    consult_doctor := [
      "Symptoms don't improve within 2 days",
      "Fever, chills, or back pain develop",
      "Blood in urine",
      "You get frequent UTIs (3+ per year)"] }),
  ("Kidney Stones",
   {
    general := [
      "Drink plenty of water (2-3 liters daily)",
      "Take prescribed pain medications",
      "Use heat therapy for pain relief",
      "Strain urine to catch the stone for analysis"],
    dos := [
      "Stay as active as possible to help pass stone",
      "Follow dietary recommendations for your stone type",
      "Take prescribed medications to help pass stone",
      "Drink citrus juices (lemon, orange)"],
    donts := [
      "Don't limit fluids",
      "Avoid excessive sodium intake",
      "Don't ignore severe pain or fever",
      "Avoid foods high in oxalates if applicable"],
    consult_doctor := [
      "Severe pain that doesn't respond to medication",
      "Unable to urinate",
      "Fever, chills, or vomiting",
      "Blood in urine is heavy"] }),
  ("Kidney Disease",
   {
    general := [
      "Control blood pressure and blood sugar",
      "Follow kidney-friendly diet as prescribed",
      "Take all medications as directed",
      "Attend all medical appointments"],
    dos := [
      "Monitor blood pressure at home",
      "Limit sodium, phosphorus, and potassium as advised",
      "Stay physically active as tolerated",
      "Maintain a healthy weight"],
    donts := [
      "Don't take NSAIDs without doctor's approval",
      "Avoid excessive protein intake",
      "Don't smoke",
      "Avoid herbal supplements without consulting doctor"],
    consult_doctor := [
      "Swelling in feet, ankles, or around eyes",
      "Changes in urination (frequency or color)",
      "Severe fatigue or weakness",
      "Nausea, vomiting, or loss of appetite"] }),
  ("Food Allergy",
   {
    general := [
      "Strictly avoid known allergens",
      "Read all food labels carefully",
      "Carry emergency epinephrine at all times",
      "Wear medical alert identification"],
    dos := [
      "Inform restaurants about your allergies",
      "Create an allergy action plan",
      "Train family/friends to use epinephrine",
      "Keep antihistamines available"],
    donts := [
      "Don't eat foods with unknown ingredients",
      "Never share food or utensils",
      "Don't delay using epinephrine if needed",
      "Avoid cross-contamination in kitchen"],
    consult_doctor := [
      "Any allergic reaction occurs",
      "Symptoms are becoming more severe over time",
      "You want allergy testing",
      "Emergency epinephrine was used"] }),
  ("Dehydration",
   {
    general := [
      "Drink fluids immediately - water or ORS",
      "Sip small amounts frequently if nauseous",
      "Rest in a cool environment",
      "Monitor for worsening symptoms"],
    dos := [
      "Drink oral rehydration solutions",
      "Eat water-rich foods (watermelon, cucumber)",
      "Replace electrolytes with sports drinks",
      "Check urine color - aim for pale yellow"],
    donts := [
      "Don't drink alcohol or caffeine",
      "Avoid very hot or strenuous activities",
      "Don't ignore symptoms of severe dehydration",
      "Avoid sugary drinks that can worsen dehydration"],
    consult_doctor := [
      "Unable to keep fluids down",
      "Dizziness, confusion, or fainting",
      "No urination for 8+ hours",
      "Rapid heartbeat or breathing"] }),
  ("Heat Stroke",
   {
    general := [
      "This is a medical emergency - call for help immediately",
      "Move to a cool, shaded area immediately",
      "Remove excess clothing",
      "Apply cool water to skin and fan"],
    dos := [
      "Call emergency services immediately",
      "Apply ice packs to neck, armpits, and groin",
      "Immerse in cool water if possible",
      "Monitor breathing and consciousness"],
    donts := [
      "Don't give fluids if person is unconscious",
      "Don't delay seeking emergency care",
      "Avoid ice-cold water immersion",
      "Don't leave person alone"],
    consult_doctor := [
      "Any suspected heat stroke is a medical emergency",
      "Body temperature above 104°F (40°C)",
      "Confusion or loss of consciousness",
      "Hot, dry skin without sweating"] }),
  ("Glaucoma",
   {
    general := [
      "Take eye drops exactly as prescribed",
      "Attend all eye appointments",
      "Protect eyes from injury",
      "Monitor peripheral vision changes"],
    dos := [
      "Use eye drops at the same time daily",
      "Keep head elevated when sleeping",
      "Inform all doctors about your glaucoma",
      "Exercise regularly (with doctor's approval)"],
    donts := [
      "Don't skip eye drop doses",
      "Avoid rubbing your eyes",
      "Don't lift heavy weights without guidance",
      "Avoid certain yoga positions that increase eye pressure"],
    consult_doctor := [
      "Sudden vision changes",
      "Severe eye pain or headache",
      "Halos around lights",
      "Nausea or vomiting with eye pain"] })
]

/-- DEFAULT_PRECAUTIONS from src/backend/precautions.py: fallback entry for unlisted diseases. -/
def DEFAULT_PRECAUTIONS : PrecautionEntry := {
  general := [
    "Rest and allow your body time to recover",
    "Stay hydrated by drinking plenty of fluids",
    "Monitor your symptoms and note any changes",
    "Maintain good hygiene practices"],
  dos := [
    "Get adequate sleep",
    "Eat nutritious, balanced meals",
    "Take note of your symptoms for your doctor",
    "Follow any medical advice you've received"],
  donts := [
    "Don't ignore worsening symptoms",
    "Avoid self-medicating without proper guidance",
    "Don't delay seeking medical attention if concerned",
    "Avoid strenuous activities until you feel better"],
  consult_doctor := [
    "Symptoms persist or worsen over time",
    "You develop new or concerning symptoms",
    "You have underlying health conditions",
    "You're unsure about your condition"]
}

/-! ## Risk Resolver (src/backend/main.py) -/

/-- calculate_risk_level (src/backend/main.py): map prediction confidence and
the disease's base risk to the final risk tier plus an optional warning
message. -/
def calculate_risk_level (confidence : ℚ) (base_risk : String) : String × String :=
  if confidence ≥ 7/10 then
    (base_risk, "")
  else if confidence ≥ 4/10 then
    ("MEDIUM", "Prediction confidence is moderate. Consider consulting a doctor.")
  else
    ("HIGH", "⚠️ Low confidence prediction. Please consult a doctor for accurate diagnosis.")

/-! ## Precaution Generator (src/backend/precautions.py) -/

/-- determine_advice_level (src/backend/precautions.py): urgency level of the
advice from confidence and risk tier. -/
def determine_advice_level (confidence : ℚ) (risk_level : String) : String :=
  if risk_level = "HIGH" ∨ confidence < 3/10 then "high"
  else if risk_level = "MEDIUM" ∨ confidence < 1/2 then "medium"
  else "low"

/-- A previous-prediction history element as generate_precautions sees it.
The source iterates over an untyped list and reads p.predicted_disease, so a
history element may lack that attribute: `none` models such a malformed
element (Python raises AttributeError on the access). -/
structure PredictionRecord where
  predicted_disease : Option String
deriving DecidableEq, Repr

/-- Python attribute access p.predicted_disease: an AttributeError when the
element has no such attribute. -/
def getPredictedDisease (p : PredictionRecord) : Except String String :=
  match p.predicted_disease with
  | some d => Except.ok d
  | none => Except.error "AttributeError"

/-- The count sum(1 for p in previous_predictions if p.predicted_disease == disease)
of generate_precautions: the attribute accesses happen left to right and the
first failing one propagates as an error. -/
def countSameDisease (disease : String) : List PredictionRecord → Except String Nat
  | [] => Except.ok 0
  | p :: ps =>
    match getPredictedDisease p with
    | Except.error e => Except.error e
    | Except.ok d =>
      match countSameDisease disease ps with
      | Except.error e => Except.error e
      | Except.ok n => Except.ok (if d = disease then n + 1 else n)

/-- Python int() on a rational: truncation toward zero (used for the rounded
confidence percentage in the opening sentence).  On the canonical num/den
representation with positive denominator, Int.div truncates toward zero. -/
def intTrunc (q : ℚ) : Int := q.num.tdiv (q.den : Int)

/-- The advice payload built by generate_precautions
(src/backend/precautions.py): a dict with advice_level, precautions, dos,
donts, consult_when and disclaimer. -/
structure AdvicePayload where
  advice_level : String
  precautions : List String
  dos : List String
  donts : List String
  consult_when : List String
  disclaimer : String
deriving DecidableEq, Repr

/-- The confidence-based opening sentence of generate_precautions: three
brackets (below 0.3, below 0.5, otherwise), templated with the user name and
the truncated confidence percentage. -/
def openingLine (confidence : ℚ) (user_name : String) : String :=
  let confidence_percent := intTrunc (confidence * 100)
  if confidence < 3/10 then
    "⚠️ " ++ user_name ++ ", the prediction confidence is low (" ++
      toString confidence_percent ++ "%). These suggestions are general guidelines. " ++
      "Please consult a healthcare professional for an accurate assessment."
  else if confidence < 1/2 then
    "📋 " ++ user_name ++ ", based on your symptoms, here are some helpful suggestions. " ++
      "The prediction confidence is moderate (" ++ toString confidence_percent ++
      "%), so professional consultation is recommended."
  else
    "💡 " ++ user_name ++ ", based on your symptoms analysis, here are personalized " ++
      "suggestions to help you feel better."

/-- The risk-tier call-to-action appended by generate_precautions: one
sentence for HIGH, one for MEDIUM, nothing for any other tier. -/
def riskCallout (risk_level : String) : List String :=
  if risk_level = "HIGH" then
    ["🏥 Given the risk assessment, we strongly recommend consulting a healthcare provider as soon as possible."]
  else if risk_level = "MEDIUM" then
    ["📞 If symptoms persist or worsen, consider scheduling a consultation with a healthcare provider."]
  else []

/-- The recurrence sentence appended by generate_precautions when the same
disease occurs at least twice in the supplied history.  A None or empty
history is skipped by the source's truthiness test; a non-empty history has
every element's predicted_disease attribute read, so a malformed element
makes the whole call raise. -/
def recurrenceSuffix (disease : String) :
    Option (List PredictionRecord) → Except String (List String)
  | none => Except.ok []
  | some preds =>
    if preds.isEmpty then Except.ok []
    else
      match countSameDisease disease preds with
      | Except.error e => Except.error e
      | Except.ok same_disease_count =>
        Except.ok
          (if same_disease_count ≥ 2 then
            ["📊 We noticed you've had similar symptoms before. If this is a recurring issue, discussing it with a doctor may help identify underlying causes."]
          else [])

/-- generate_precautions (src/backend/precautions.py).  `Except.error`
corresponds to an uncaught Python exception; the only fallible step is the
attribute access on history elements inside `recurrenceSuffix`.  The
precautions list is the opening line, then up to 4 general precautions, then
the risk callout, then the recurrence sentence, exactly as the source
appends them. -/
def generate_precautions (disease : String) (confidence : ℚ) (risk_level : String)
    (user_name : String) (previous_predictions : Option (List PredictionRecord)) :
    Except String AdvicePayload :=
  let precautions_data := (DISEASE_PRECAUTIONS.lookup disease).getD DEFAULT_PRECAUTIONS
  match recurrenceSuffix disease previous_predictions with
  | Except.error e => Except.error e
  | Except.ok recurrence => Except.ok {
    advice_level := determine_advice_level confidence risk_level,
    precautions :=
      openingLine confidence user_name :: precautions_data.general.take 4 ++
        riskCallout risk_level ++ recurrence,
    dos := precautions_data.dos.take 4,
    donts := precautions_data.donts.take 4,
    consult_when := precautions_data.consult_doctor.take 4,
    disclaimer := "⚠️ DISCLAIMER: This advice is NOT a substitute for professional medical diagnosis, advice, or treatment. Always consult a qualified healthcare provider for medical concerns." }

/-! ## Doctor Matcher (src/backend/doctors.py) -/

/-- Python str.lower(), as used by the expertise matching (all expertise and
disease strings are ASCII): character-wise lowercasing. -/
def lower (s : String) : String := String.mk (s.data.map Char.toLower)

/-- Does the second character list start with the first one? -/
def startsWithChars : List Char → List Char → Bool
  | [], _ => true
  | _ :: _, [] => false
  | a :: as, b :: bs => a == b && startsWithChars as bs

/-- Is the first character list a contiguous segment of the second one? -/
def hasInfixChars (n : List Char) : List Char → Bool
  | [] => n.isEmpty
  | b :: bs => startsWithChars n (b :: bs) || hasInfixChars n bs

/-- Python substring test a in b, on the character sequences. -/
def substrIn (a b : String) : Bool := hasInfixChars a.data b.data

/-- The expertise fuzzy match of get_recommended_doctors: some expertise tag
contains or is contained in the disease name, case-insensitively. -/
def expertiseMatch (doctor : Doctor) (disease : String) : Bool :=
  doctor.expertise.any fun e =>
    substrIn (lower disease) (lower e) || substrIn (lower e) (lower disease)

/-- Drop leading whitespace, as Python str.split() does before the first
token. -/
def dropWS : List Char → List Char
  | [] => []
  | c :: cs => if c.isWhitespace then dropWS cs else c :: cs

/-- The first whitespace-delimited token of a character list. -/
def takeTok : List Char → List Char
  | [] => []
  | c :: cs => if c.isWhitespace then [] else c :: takeTok cs

/-- Decimal digit accumulation: none as soon as a non-digit appears. -/
def digitsToNat (cs : List Char) : Option Nat :=
  cs.foldl
    (fun acc c =>
      match acc with
      | none => none
      | some n => if c.isDigit then some (n * 10 + (c.toNat - 48)) else none)
    (some 0)

/-- Python int() on one token: optional sign then decimal digits, none (an
exception) on an empty or non-numeric token. -/
def parseIntToken : List Char → Option Int
  | [] => none
  | '-' :: rest =>
    if rest.isEmpty then none else (digitsToNat rest).map (fun n => -(n : Int))
  | '+' :: rest =>
    if rest.isEmpty then none else (digitsToNat rest).map (fun n => (n : Int))
  | cs => (digitsToNat cs).map (fun n => (n : Int))

/-- The experience parse of _calculate_relevance:
int(experience.split()[0]), where a failed parse (no token, or a non-numeric
token) is caught by the source and yields no experience bonus. -/
def parseExperienceYears (experience : String) : Option Int :=
  parseIntToken (takeTok (dropWS experience.data))

/-- _calculate_relevance (src/backend/doctors.py): the doctor relevance score,
accumulated exactly in source order. -/
def _calculate_relevance (doctor : Doctor) (disease : String) (risk_level : String)
    (expertise_match : Bool) : Int :=
  let score : Int := 0
  let score := if expertise_match then score + 50 else score
  let score :=
    if risk_level = "HIGH" ∧ doctor.specialization ≠ "General Physician" then score + 30
    else score
  let score :=
    if doctor.expertise.any (fun e => lower disease = lower e) then score + 40 else score
  let score :=
    if doctor.specialization = "General Physician" ∧ risk_level = "LOW" then score + 20
    else score
  match parseExperienceYears doctor.experience with
  | some years => score + min years 30
  | none => score

/-- A recommendation record built by get_recommended_doctors for one matching
doctor. -/
structure Recommendation where
  id : Nat
  name : String
  specialization : String
  location : String
  contact : String
  availability : String
  consultation_fee : String
  experience : String
  expertise_match : Bool
  relevance_score : Int
deriving DecidableEq, Repr

/-- The candidate specialization list resolved by get_recommended_doctors:
the DISEASE_SPECIALIZATION_MAP entry (General Physician when the disease is
unmapped), and for HIGH risk the specialist-first step that drops General
Physician unless that would empty the list. -/
def resolveSpecializations (disease risk_level : String) : List String :=
  let specializations := (DISEASE_SPECIALIZATION_MAP.lookup disease).getD ["General Physician"]
  if risk_level = "HIGH" then
    let specialists := specializations.filter (fun s => s ≠ "General Physician")
    if specialists.isEmpty then ["General Physician"] else specialists
  else specializations

/-- The recommendation dict built for one matching doctor. -/
def mkRecommendation (doctor : Doctor) (disease risk_level : String) : Recommendation :=
  let em := expertiseMatch doctor disease
  { id := doctor.id, name := doctor.name, specialization := doctor.specialization,
    location := doctor.location, contact := doctor.contact,
    availability := doctor.availability, consultation_fee := doctor.consultation_fee,
    experience := doctor.experience, expertise_match := em,
    relevance_score := _calculate_relevance doctor disease risk_level em }

/-- The unsorted recommendation list: the directory in file order, filtered to
doctors whose specialization is in the candidate set. -/
def candidateRecommendations (disease risk_level : String) : List Recommendation :=
  (DOCTORS_DATABASE.filter fun d =>
      d.specialization ∈ resolveSpecializations disease risk_level).map
    fun d => mkRecommendation d disease risk_level

/-- One step of the stable descending sort: the new element goes after every
already-placed element whose score is at least its own. -/
def insertByScore (r : Recommendation) : List Recommendation → List Recommendation
  | [] => [r]
  | x :: xs =>
    if r.relevance_score ≤ x.relevance_score then x :: insertByScore r xs
    else r :: x :: xs

/-- recommendations.sort(key=relevance_score, reverse=True): Python list.sort
is stable, and with reverse=True elements of equal key keep their original
order, which this left-to-right insertion sort reproduces. -/
def sortByScore (l : List Recommendation) : List Recommendation :=
  l.foldl (fun acc r => insertByScore r acc) []

/-- get_recommended_doctors (src/backend/doctors.py). -/
def get_recommended_doctors (disease risk_level : String) (limit : Nat) :
    List Recommendation :=
  (sortByScore (candidateRecommendations disease risk_level)).take limit

/-! ## Auxiliary predicates and helper lemmas -/

/-- Every element of the optional history carries the predicted_disease
attribute (the shape real Prediction rows always have). -/
def wellFormedHistory : Option (List PredictionRecord) → Bool
  | none => true
  | some preds => preds.all fun p => p.predicted_disease.isSome

/-- Non-increasing relevance-score order between two recommendations. -/
def scoreGE (a b : Recommendation) : Prop := b.relevance_score ≤ a.relevance_score

instance : DecidableRel scoreGE := fun _a _b => inferInstanceAs (Decidable (_ ≤ _))

lemma mem_insertByScore {x r : Recommendation} {l : List Recommendation} :
    x ∈ insertByScore r l ↔ x = r ∨ x ∈ l := by
  induction l with
  | nil => simp [insertByScore]
  | cons y ys ih =>
    simp only [insertByScore]
    split
    · rw [List.mem_cons, ih, List.mem_cons]
      tauto
    · simp only [List.mem_cons]

lemma pairwise_insertByScore {r : Recommendation} {l : List Recommendation}
    (hl : l.Pairwise scoreGE) : (insertByScore r l).Pairwise scoreGE := by
  induction l with
  | nil => simp [insertByScore]
  | cons y ys ih =>
    rcases List.pairwise_cons.mp hl with ⟨hy, hys⟩
    simp only [insertByScore]
    split
    case isTrue hle =>
      refine List.pairwise_cons.mpr ⟨?_, ih hys⟩
      intro b hb
      rcases mem_insertByScore.mp hb with rfl | hb
      · exact hle
      · exact hy b hb
    case isFalse hgt =>
      refine List.pairwise_cons.mpr ⟨?_, hl⟩
      intro b hb
      rcases List.mem_cons.mp hb with rfl | hb
      · exact le_of_lt (lt_of_not_le hgt)
      · exact le_trans (hy b hb) (le_of_lt (lt_of_not_le hgt))

lemma filter_insertByScore {r : Recommendation} {l : List Recommendation} {s : ℤ}
    (hl : l.Pairwise scoreGE) :
    (insertByScore r l).filter (fun a => a.relevance_score = s) =
      if r.relevance_score = s
      then l.filter (fun a => a.relevance_score = s) ++ [r]
      else l.filter (fun a => a.relevance_score = s) := by
  induction l with
  | nil =>
    by_cases h : r.relevance_score = s <;> simp [insertByScore, h]
  | cons y ys ih =>
    rcases List.pairwise_cons.mp hl with ⟨hy, hys⟩
    simp only [insertByScore]
    split
    case isTrue hle =>
      by_cases hr : r.relevance_score = s <;>
        by_cases hyy : y.relevance_score = s <;>
          simp [List.filter_cons, hr, hyy, ih hys]
    case isFalse hgt =>
      have hlt : y.relevance_score < r.relevance_score := lt_of_not_le hgt
      by_cases hr : r.relevance_score = s
      · have hnil : (y :: ys).filter (fun a => a.relevance_score = s) = [] := by
          refine List.filter_eq_nil_iff.mpr ?_
          intro b hb
          rcases List.mem_cons.mp hb with rfl | hb
          · simp only [decide_eq_true_eq]
            omega
          · have : b.relevance_score ≤ y.relevance_score := hy b hb
            simp only [decide_eq_true_eq]
            omega
        simp [List.filter_cons, hr, hnil]
      · by_cases hyy : y.relevance_score = s <;> simp [List.filter_cons, hr, hyy]

lemma mem_sortFold {x : Recommendation} :
    ∀ (l acc : List Recommendation),
      (x ∈ List.foldl (fun acc r => insertByScore r acc) acc l ↔ x ∈ acc ∨ x ∈ l)
  | [], acc => by simp
  | y :: ys, acc => by
    simp only [List.foldl_cons]
    rw [mem_sortFold ys (insertByScore y acc)]
    simp only [mem_insertByScore, List.mem_cons]
    tauto

lemma pairwise_sortFold :
    ∀ (l acc : List Recommendation), acc.Pairwise scoreGE →
      (List.foldl (fun acc r => insertByScore r acc) acc l).Pairwise scoreGE
  | [], acc, h => h
  | y :: ys, acc, h => by
    simp only [List.foldl_cons]
    exact pairwise_sortFold ys _ (pairwise_insertByScore h)

lemma filter_sortFold {s : ℤ} :
    ∀ (l acc : List Recommendation), acc.Pairwise scoreGE →
      (List.foldl (fun acc r => insertByScore r acc) acc l).filter
          (fun a => a.relevance_score = s) =
        acc.filter (fun a => a.relevance_score = s) ++
          l.filter (fun a => a.relevance_score = s)
  | [], acc, h => by simp
  | y :: ys, acc, h => by
    simp only [List.foldl_cons]
    rw [filter_sortFold ys _ (pairwise_insertByScore h), filter_insertByScore h,
      List.filter_cons]
    by_cases hyy : y.relevance_score = s <;> simp [hyy]

lemma mem_sortByScore {x : Recommendation} {l : List Recommendation} :
    x ∈ sortByScore l ↔ x ∈ l := by
  unfold sortByScore
  rw [mem_sortFold l []]
  simp

lemma pairwise_sortByScore (l : List Recommendation) :
    (sortByScore l).Pairwise scoreGE :=
  pairwise_sortFold l [] (by simp)

lemma filter_sortByScore (l : List Recommendation) (s : ℤ) :
    (sortByScore l).filter (fun a => a.relevance_score = s) =
      l.filter (fun a => a.relevance_score = s) := by
  unfold sortByScore
  rw [filter_sortFold l [] (by simp)]
  simp

lemma lookup_mem_of_eq_some {k : String} {v : PrecautionEntry} :
    ∀ {l : List (String × PrecautionEntry)}, l.lookup k = some v → (k, v) ∈ l := by
  intro l
  induction l with
  | nil => intro h; simp [List.lookup] at h
  | cons p ps ih =>
    obtain ⟨a, b⟩ := p
    intro h
    cases hbeq : (k == a) with
    | true =>
      obtain rfl : k = a := eq_of_beq hbeq
      obtain rfl : b = v := by simpa [List.lookup, hbeq] using h
      exact List.mem_cons_self _ _
    | false =>
      exact List.mem_cons_of_mem _ (ih (by simpa [List.lookup, hbeq] using h))

/-- Every DISEASE_PRECAUTIONS entry has exactly 4 strings in each of its four
lists. -/
lemma disease_precautions_lengths :
    ∀ p ∈ DISEASE_PRECAUTIONS,
      p.2.general.length = 4 ∧ p.2.dos.length = 4 ∧
      p.2.donts.length = 4 ∧ p.2.consult_doctor.length = 4 := by decide

/-- DEFAULT_PRECAUTIONS has exactly 4 strings in each of its four lists. -/
lemma default_precautions_lengths :
    DEFAULT_PRECAUTIONS.general.length = 4 ∧ DEFAULT_PRECAUTIONS.dos.length = 4 ∧
    DEFAULT_PRECAUTIONS.donts.length = 4 ∧
    DEFAULT_PRECAUTIONS.consult_doctor.length = 4 := by decide

lemma countSameDisease_ok (disease : String) :
    ∀ (preds : List PredictionRecord),
      (preds.all fun p => p.predicted_disease.isSome) = true →
      ∃ n, countSameDisease disease preds = Except.ok n := by
  intro preds
  induction preds with
  | nil => exact fun _ => ⟨0, rfl⟩
  | cons p ps ih =>
    intro h
    rw [List.all_cons, Bool.and_eq_true] at h
    obtain ⟨h1, h2⟩ := h
    obtain ⟨d, hd⟩ := Option.isSome_iff_exists.mp h1
    obtain ⟨n, hn⟩ := ih h2
    refine ⟨if d = disease then n + 1 else n, ?_⟩
    simp only [countSameDisease, getPredictedDisease, hd, hn]

lemma recurrenceSuffix_ok (disease : String) {hist : Option (List PredictionRecord)}
    (hwf : wellFormedHistory hist = true) :
    ∃ suffix, recurrenceSuffix disease hist = Except.ok suffix ∧ suffix.length ≤ 1 := by
  match hist with
  | none => exact ⟨[], rfl, by simp⟩
  | some preds =>
    by_cases hemp : preds.isEmpty
    · exact ⟨[], by simp [recurrenceSuffix, hemp], by simp⟩
    · obtain ⟨n, hn⟩ := countSameDisease_ok disease preds
        (by simpa [wellFormedHistory] using hwf)
      have hred : recurrenceSuffix disease (some preds) =
          Except.ok (if n ≥ 2 then
            ["📊 We noticed you've had similar symptoms before. If this is a recurring issue, discussing it with a doctor may help identify underlying causes."]
          else []) := by
        simp only [recurrenceSuffix, hn]
        rw [if_neg hemp]
      refine ⟨_, hred, ?_⟩
      split <;> simp

/-- Shape of a successful generate_precautions call: with the precaution
table entry resolved to E and a well-formed history, the call returns a
payload whose dos, donts and consult_when are E's lists truncated to four
items and whose precautions list is the opening line, up to four general
precautions, the risk callout and the recurrence suffix (length at most 1). -/
lemma generate_precautions_fields (disease : String) (confidence : ℚ)
    (risk_level user_name : String) (hist : Option (List PredictionRecord))
    (E : PrecautionEntry)
    (hE : (DISEASE_PRECAUTIONS.lookup disease).getD DEFAULT_PRECAUTIONS = E)
    (hwf : wellFormedHistory hist = true) :
    ∃ payload,
      generate_precautions disease confidence risk_level user_name hist =
        Except.ok payload ∧
      payload.dos = E.dos.take 4 ∧
      payload.donts = E.donts.take 4 ∧
      payload.consult_when = E.consult_doctor.take 4 ∧
      ∃ suffix, recurrenceSuffix disease hist = Except.ok suffix ∧
        suffix.length ≤ 1 ∧
        payload.precautions.length =
          (E.general.take 4).length + (riskCallout risk_level).length +
            suffix.length + 1 := by
  obtain ⟨suffix, hs, hlen⟩ := recurrenceSuffix_ok disease hwf
  have hok : generate_precautions disease confidence risk_level user_name hist =
      Except.ok {
        advice_level := determine_advice_level confidence risk_level,
        precautions :=
          openingLine confidence user_name :: E.general.take 4 ++
            riskCallout risk_level ++ suffix,
        dos := E.dos.take 4,
        donts := E.donts.take 4,
        consult_when := E.consult_doctor.take 4,
        disclaimer := "⚠️ DISCLAIMER: This advice is NOT a substitute for professional medical diagnosis, advice, or treatment. Always consult a qualified healthcare provider for medical concerns." } := by
    unfold generate_precautions
    rw [hs, hE]
  refine ⟨_, hok, rfl, rfl, rfl, suffix, hs, hlen, ?_⟩
  show (openingLine confidence user_name :: E.general.take 4 ++
      riskCallout risk_level ++ suffix).length = _
  rw [List.length_append, List.length_append, List.length_cons]
  omega

/-- The length of the risk callout is at most 1 (and 0 only off the HIGH and
MEDIUM tiers). -/
lemma riskCallout_length (risk_level : String) : (riskCallout risk_level).length ≤ 1 := by
  unfold riskCallout
  split
  · simp
  · split <;> simp

/-- Numeric order of advice levels: low < medium < high. -/
def adviceRank (level : String) : Nat :=
  if level = "high" then 2 else if level = "medium" then 1 else 0

/-- Numeric order of risk tiers: LOW < MEDIUM < HIGH. -/
def riskRank (risk_level : String) : Nat :=
  if risk_level = "HIGH" then 2 else if risk_level = "MEDIUM" then 1 else 0

/-! ## Claim theorems -/

/-- C1: for every confidence in [0,1] and every base risk tier,
calculate_risk_level returns (base_risk, "") when confidence ≥ 0.70,
("MEDIUM", non-empty caution) when 0.40 ≤ confidence < 0.70, and
("HIGH", non-empty warning) when confidence < 0.40. -/
theorem claim_C1_risk_resolver (confidence : ℚ) (base_risk : String)
    (_h0 : 0 ≤ confidence) (_h1 : confidence ≤ 1) :
    (7/10 ≤ confidence →
      calculate_risk_level confidence base_risk = (base_risk, "")) ∧
    (4/10 ≤ confidence → confidence < 7/10 →
      (calculate_risk_level confidence base_risk).1 = "MEDIUM" ∧
      (calculate_risk_level confidence base_risk).2 ≠ "") ∧
    (confidence < 4/10 →
      (calculate_risk_level confidence base_risk).1 = "HIGH" ∧
      (calculate_risk_level confidence base_risk).2 ≠ "") := by
  unfold calculate_risk_level
  refine ⟨fun h7 => by rw [if_pos h7], fun h4 h7 => ?_, fun h4 => ?_⟩
  · rw [if_neg (not_le.mpr h7), if_pos h4]
    exact ⟨rfl, by decide⟩
  · rw [if_neg (not_le.mpr (by linarith)), if_neg (not_le.mpr h4)]
    exact ⟨rfl, by decide⟩

/-- Witness for C1 at confidence 1/2 and base risk LOW. -/
theorem claim_C1_witness :
    (7/10 ≤ (1/2 : ℚ) → calculate_risk_level (1/2) "LOW" = ("LOW", "")) ∧
    (4/10 ≤ (1/2 : ℚ) → (1/2 : ℚ) < 7/10 →
      (calculate_risk_level (1/2) "LOW").1 = "MEDIUM" ∧
      (calculate_risk_level (1/2) "LOW").2 ≠ "") ∧
    ((1/2 : ℚ) < 4/10 →
      (calculate_risk_level (1/2) "LOW").1 = "HIGH" ∧
      (calculate_risk_level (1/2) "LOW").2 ≠ "") :=
  claim_C1_risk_resolver (1/2) "LOW" (by norm_num) (by norm_num)

/-- C2: determine_advice_level returns "high" exactly when risk is HIGH or
confidence < 0.30; otherwise "medium" exactly when risk is MEDIUM or
confidence < 0.50; otherwise "low" (risk tier dominates the confidence
thresholds). -/
theorem claim_C2_advice_level (confidence : ℚ) (risk_level : String)
    (_h0 : 0 ≤ confidence) (_h1 : confidence ≤ 1)
    (_hr : risk_level = "LOW" ∨ risk_level = "MEDIUM" ∨ risk_level = "HIGH") :
    (determine_advice_level confidence risk_level = "high" ↔
      (risk_level = "HIGH" ∨ confidence < 3/10)) ∧
    (¬(risk_level = "HIGH" ∨ confidence < 3/10) →
      (determine_advice_level confidence risk_level = "medium" ↔
        (risk_level = "MEDIUM" ∨ confidence < 1/2))) ∧
    (¬(risk_level = "HIGH" ∨ confidence < 3/10) →
      ¬(risk_level = "MEDIUM" ∨ confidence < 1/2) →
      determine_advice_level confidence risk_level = "low") := by
  unfold determine_advice_level
  split_ifs with hA hB
  · exact ⟨iff_of_true rfl hA, fun hcon => absurd hA hcon, fun hcon _ => absurd hA hcon⟩
  · exact ⟨iff_of_false (by decide) hA, fun _ => iff_of_true rfl hB,
      fun _ hcon => absurd hB hcon⟩
  · exact ⟨iff_of_false (by decide) hA, fun _ => iff_of_false (by decide) hB,
      fun _ _ => rfl⟩

/-- Witness for C2 at confidence 3/5 and risk LOW. -/
theorem claim_C2_witness :
    (determine_advice_level (3/5) "LOW" = "high" ↔
      (("LOW" : String) = "HIGH" ∨ (3/5 : ℚ) < 3/10)) ∧
    (¬(("LOW" : String) = "HIGH" ∨ (3/5 : ℚ) < 3/10) →
      (determine_advice_level (3/5) "LOW" = "medium" ↔
        (("LOW" : String) = "MEDIUM" ∨ (3/5 : ℚ) < 1/2))) ∧
    (¬(("LOW" : String) = "HIGH" ∨ (3/5 : ℚ) < 3/10) →
      ¬(("LOW" : String) = "MEDIUM" ∨ (3/5 : ℚ) < 1/2) →
      determine_advice_level (3/5) "LOW" = "low") :=
  claim_C2_advice_level (3/5) "LOW" (by norm_num) (by norm_num) (Or.inl rfl)

/-- C3: for every directory doctor, disease and risk tier, the relevance
score is the sum of the fuzzy-match bonus (50), the HIGH-risk specialist
bonus (30), the exact-match bonus (40, additive with the 50), the
General-Physician LOW-risk bonus (20) and the capped experience bonus
min(experience_years, 30). -/
theorem claim_C3_relevance_sum (d : Doctor) (disease risk_level : String) (years : ℤ)
    (_hd : d ∈ DOCTORS_DATABASE)
    (hy : parseExperienceYears d.experience = some years) :
    _calculate_relevance d disease risk_level (expertiseMatch d disease) =
      (if expertiseMatch d disease then 50 else 0) +
      (if risk_level = "HIGH" ∧ d.specialization ≠ "General Physician" then 30 else 0) +
      (if d.expertise.any (fun e => lower disease = lower e) then 40 else 0) +
      (if d.specialization = "General Physician" ∧ risk_level = "LOW" then 20 else 0) +
      min years 30 := by
  unfold _calculate_relevance
  rw [hy]
  split_ifs <;> ring

/-- Witness for C3: the first directory doctor, disease Common Cold, risk
LOW; the doctor's 15 parsed experience years give min 15 30 = 15. -/
theorem claim_C3_witness :
    _calculate_relevance (DOCTORS_DATABASE.get ⟨0, by decide⟩) "Common Cold" "LOW"
        (expertiseMatch (DOCTORS_DATABASE.get ⟨0, by decide⟩) "Common Cold") =
      (if expertiseMatch (DOCTORS_DATABASE.get ⟨0, by decide⟩) "Common Cold" then 50 else 0) +
      (if ("LOW" : String) = "HIGH" ∧
          (DOCTORS_DATABASE.get ⟨0, by decide⟩).specialization ≠ "General Physician"
        then 30 else 0) +
      (if (DOCTORS_DATABASE.get ⟨0, by decide⟩).expertise.any
            (fun e => lower "Common Cold" = lower e)
        then 40 else 0) +
      (if (DOCTORS_DATABASE.get ⟨0, by decide⟩).specialization = "General Physician" ∧
          ("LOW" : String) = "LOW"
        then 20 else 0) +
      min 15 30 :=
  claim_C3_relevance_sum (DOCTORS_DATABASE.get ⟨0, by decide⟩) "Common Cold" "LOW" 15
    (by decide) (by decide)

/-- C4 counterexample: the claim speaks of disease "Diabetes", but the
DISEASE_SPECIALIZATION_MAP key is "Diabetes Symptoms", so "Diabetes"
resolves to the default ["General Physician"] (kept even at HIGH risk since
dropping it would empty the set), and the doctors returned for
("Diabetes", HIGH, 3) are General Physicians, not Endocrinologists or
Diabetologists. -/
theorem claim_C4_counterexample :
    resolveSpecializations "Diabetes" "HIGH" = ["General Physician"] ∧
    (get_recommended_doctors "Diabetes" "HIGH" 3).map (fun r => r.specialization) =
      ["General Physician", "General Physician", "General Physician"] := by
  constructor
  · rfl
  · rfl

/-- C4 amended: for the map's actual key "Diabetes Symptoms" with risk HIGH
and limit 3, the candidate specializations become
["Endocrinologist", "Diabetologist"] (General Physician dropped), the
returned list contains only doctors with those specializations, and it is
ranked by relevance score descending. -/
theorem claim_C4_amended :
    resolveSpecializations "Diabetes Symptoms" "HIGH" =
      ["Endocrinologist", "Diabetologist"] ∧
    (∀ r ∈ get_recommended_doctors "Diabetes Symptoms" "HIGH" 3,
      r.specialization ∈ (["Endocrinologist", "Diabetologist"] : List String)) ∧
    (get_recommended_doctors "Diabetes Symptoms" "HIGH" 3).Pairwise scoreGE := by
  refine ⟨rfl, by decide, by decide⟩

/-- C5: for every disease, risk tier and limit, the Doctor Matcher returns at
most limit entries, every returned entry's specialization is in the resolved
candidate set, the returned entries are in non-increasing relevance-score
order, and the sort is stable: for each score value, the sorted list keeps
the directory (insertion) order of the entries having that score. -/
theorem claim_C5_matcher_shape (disease risk_level : String) (limit : Nat) :
    (get_recommended_doctors disease risk_level limit).length ≤ limit ∧
    (∀ r ∈ get_recommended_doctors disease risk_level limit,
      r.specialization ∈ resolveSpecializations disease risk_level) ∧
    (get_recommended_doctors disease risk_level limit).Pairwise scoreGE ∧
    (∀ s : ℤ,
      (sortByScore (candidateRecommendations disease risk_level)).filter
          (fun r => r.relevance_score = s) =
        (candidateRecommendations disease risk_level).filter
          (fun r => r.relevance_score = s)) := by
  refine ⟨?_, ?_, ?_, fun s => filter_sortByScore _ s⟩
  · exact List.length_take_le _ _
  · intro r hr
    have hmem : r ∈ sortByScore (candidateRecommendations disease risk_level) :=
      List.mem_of_mem_take hr
    have hcand : r ∈ candidateRecommendations disease risk_level :=
      mem_sortByScore.mp hmem
    unfold candidateRecommendations at hcand
    obtain ⟨d, hd, rfl⟩ := List.mem_map.mp hcand
    obtain ⟨-, hspec⟩ := List.mem_filter.mp hd
    have hmem2 : d.specialization ∈ resolveSpecializations disease risk_level :=
      of_decide_eq_true hspec
    simpa [mkRecommendation] using hmem2
  · exact (pairwise_sortByScore _).sublist (List.take_sublist _ _)

/-- C6: for every disease listed in DISEASE_PRECAUTIONS, every confidence,
every risk tier, every user name and every (well-formed) history, the
precautions list of the returned payload has between 5 and 7 entries. -/
theorem claim_C6_precautions_length (disease : String) (confidence : ℚ)
    (risk_level user_name : String) (hist : Option (List PredictionRecord))
    (hdis : (DISEASE_PRECAUTIONS.lookup disease).isSome = true)
    (_hrisk : risk_level = "LOW" ∨ risk_level = "MEDIUM" ∨ risk_level = "HIGH")
    (hwf : wellFormedHistory hist = true) :
    ∃ payload,
      generate_precautions disease confidence risk_level user_name hist =
        Except.ok payload ∧
      5 ≤ payload.precautions.length ∧ payload.precautions.length ≤ 7 := by
  obtain ⟨entry, hentry⟩ := Option.isSome_iff_exists.mp hdis
  have hE : (DISEASE_PRECAUTIONS.lookup disease).getD DEFAULT_PRECAUTIONS = entry := by
    rw [hentry]; rfl
  obtain ⟨payload, hok, hdos, hdonts, hcons, suffix, hs, hslen, hplen⟩ :=
    generate_precautions_fields disease confidence risk_level user_name hist
      entry hE hwf
  have hgen : entry.general.length = 4 :=
    (disease_precautions_lengths _ (lookup_mem_of_eq_some hentry)).1
  have hcall := riskCallout_length risk_level
  have htake : (entry.general.take 4).length = 4 := by
    rw [List.length_take, hgen]
    decide
  refine ⟨payload, hok, ?_, ?_⟩ <;> omega

/-- Witness for C6: Common Cold at confidence 4/5, risk LOW, no history. -/
theorem claim_C6_witness :
    ∃ payload,
      generate_precautions "Common Cold" (4/5) "LOW" "Alex" none =
        Except.ok payload ∧
      5 ≤ payload.precautions.length ∧ payload.precautions.length ≤ 7 :=
  claim_C6_precautions_length "Common Cold" (4/5) "LOW" "Alex" none
    (by decide) (Or.inl rfl) (by decide)

/-- C7: for every disease name missing from DISEASE_PRECAUTIONS, the call
returns normally (given well-formed history input) and its dos, donts and
consult_when lists are exactly the DEFAULT_PRECAUTIONS lists, unchanged. -/
theorem claim_C7_default_fallback (disease : String) (confidence : ℚ)
    (risk_level user_name : String) (hist : Option (List PredictionRecord))
    (hdis : DISEASE_PRECAUTIONS.lookup disease = none)
    (hwf : wellFormedHistory hist = true) :
    ∃ payload,
      generate_precautions disease confidence risk_level user_name hist =
        Except.ok payload ∧
      payload.dos = DEFAULT_PRECAUTIONS.dos ∧
      payload.donts = DEFAULT_PRECAUTIONS.donts ∧
      payload.consult_when = DEFAULT_PRECAUTIONS.consult_doctor := by
  have hE : (DISEASE_PRECAUTIONS.lookup disease).getD DEFAULT_PRECAUTIONS =
      DEFAULT_PRECAUTIONS := by rw [hdis]; rfl
  obtain ⟨payload, hok, hdos, hdonts, hcons, -⟩ :=
    generate_precautions_fields disease confidence risk_level user_name hist
      DEFAULT_PRECAUTIONS hE hwf
  refine ⟨payload, hok, ?_, ?_, ?_⟩
  · rw [hdos]; rfl
  · rw [hdonts]; rfl
  · rw [hcons]; rfl

/-- Witness for C7: the unlisted alias "Cold" with an empty history. -/
theorem claim_C7_witness :
    ∃ payload,
      generate_precautions "Cold" (1/4) "HIGH" "Sam" (some []) =
        Except.ok payload ∧
      payload.dos = DEFAULT_PRECAUTIONS.dos ∧
      payload.donts = DEFAULT_PRECAUTIONS.donts ∧
      payload.consult_when = DEFAULT_PRECAUTIONS.consult_doctor :=
  claim_C7_default_fallback "Cold" (1/4) "HIGH" "Sam" (some []) (by decide) (by decide)

/-- C8 counterexample: the claim says a malformed history is treated as "no
recurrence" and never raises, but a one-element history whose element lacks
the predicted_disease attribute makes generate_precautions raise
(AttributeError propagates as an error). -/
theorem claim_C8_counterexample :
    generate_precautions "Common Cold" (4/5) "LOW" "Alex"
        (some [{ predicted_disease := none }]) =
      Except.error "AttributeError" := by
  rfl

/-- C8 amended: an empty or missing (None) previous-prediction history is
treated as "no recurrence": the call returns normally and behaves exactly as
if no history were supplied, so no recurrence sentence is appended.  (A
malformed history element, in contrast, raises AttributeError.) -/
theorem claim_C8_amended (disease : String) (confidence : ℚ)
    (risk_level user_name : String) :
    generate_precautions disease confidence risk_level user_name (some []) =
      generate_precautions disease confidence risk_level user_name none ∧
    ∃ payload,
      generate_precautions disease confidence risk_level user_name none =
        Except.ok payload := by
  constructor
  · rfl
  · exact ⟨_, rfl⟩

lemma advice_level_high_tier (c : ℚ) : determine_advice_level c "HIGH" = "high" := by
  unfold determine_advice_level
  rw [if_pos (Or.inl rfl)]

lemma advice_level_medium_tier (c : ℚ) :
    determine_advice_level c "MEDIUM" = if c < 3/10 then "high" else "medium" := by
  unfold determine_advice_level
  by_cases h3 : c < 3/10
  · rw [if_pos (Or.inr h3), if_pos h3]
  · have hA : ¬(("MEDIUM" : String) = "HIGH" ∨ c < 3/10) := by
      rintro (hs | hc)
      · exact absurd hs (by decide)
      · exact h3 hc
    rw [if_neg hA, if_pos (Or.inl rfl), if_neg h3]

lemma advice_level_low_tier (c : ℚ) :
    determine_advice_level c "LOW" =
      if c < 3/10 then "high" else if c < 1/2 then "medium" else "low" := by
  unfold determine_advice_level
  by_cases h3 : c < 3/10
  · rw [if_pos (Or.inr h3), if_pos h3]
  · have hA : ¬(("LOW" : String) = "HIGH" ∨ c < 3/10) := by
      rintro (hs | hc)
      · exact absurd hs (by decide)
      · exact h3 hc
    rw [if_neg hA, if_neg h3]
    by_cases h5 : c < 1/2
    · rw [if_pos (Or.inr h5), if_pos h5]
    · have hB : ¬(("LOW" : String) = "MEDIUM" ∨ c < 1/2) := by
        rintro (hs | hc)
        · exact absurd hs (by decide)
        · exact h5 hc
      rw [if_neg hB, if_neg h5]

/-- C9: the advice level is monotonic in (confidence, risk): non-increasing
as confidence grows at fixed risk tier, and non-decreasing in the risk order
LOW < MEDIUM < HIGH at fixed confidence. -/
theorem claim_C9_advice_monotone (c c' : ℚ) (r r' : String)
    (_h0 : 0 ≤ c) (_h1 : c ≤ 1) (_h2 : 0 ≤ c') (_h3 : c' ≤ 1)
    (hr : r = "LOW" ∨ r = "MEDIUM" ∨ r = "HIGH")
    (hr' : r' = "LOW" ∨ r' = "MEDIUM" ∨ r' = "HIGH") :
    (r = r' → c ≤ c' →
      adviceRank (determine_advice_level c' r') ≤
        adviceRank (determine_advice_level c r)) ∧
    (c = c' → riskRank r ≤ riskRank r' →
      adviceRank (determine_advice_level c r) ≤
        adviceRank (determine_advice_level c' r')) := by
  constructor
  · rintro rfl hc
    rcases hr with rfl | rfl | rfl
    · simp only [advice_level_low_tier]
      split_ifs <;> first | decide | (exfalso; linarith)
    · simp only [advice_level_medium_tier]
      split_ifs <;> first | decide | (exfalso; linarith)
    · simp only [advice_level_high_tier]
      decide
  · rintro rfl hrank
    rcases hr with rfl | rfl | rfl <;> rcases hr' with rfl | rfl | rfl
    · exact le_rfl
    · simp only [advice_level_low_tier, advice_level_medium_tier]
      split_ifs <;> decide
    · simp only [advice_level_low_tier, advice_level_high_tier]
      split_ifs <;> decide
    · exact absurd hrank (by decide)
    · exact le_rfl
    · simp only [advice_level_medium_tier, advice_level_high_tier]
      split_ifs <;> decide
    · exact absurd hrank (by decide)
    · exact absurd hrank (by decide)
    · exact le_rfl

/-- Witness for C9 at (c, c') = (1/4, 3/4) and risk tiers LOW, LOW. -/
theorem claim_C9_witness :
    ((("LOW" : String) = "LOW") → (1/4 : ℚ) ≤ 3/4 →
      adviceRank (determine_advice_level (3/4) "LOW") ≤
        adviceRank (determine_advice_level (1/4) "LOW")) ∧
    ((1/4 : ℚ) = 3/4 → riskRank "LOW" ≤ riskRank "LOW" →
      adviceRank (determine_advice_level (1/4) "LOW") ≤
        adviceRank (determine_advice_level (3/4) "LOW")) :=
  claim_C9_advice_monotone (1/4) (3/4) "LOW" "LOW"
    (by norm_num) (by norm_num) (by norm_num) (by norm_num)
    (Or.inl rfl) (Or.inl rfl)

/-- C10: for every disease (listed or not), confidence, risk tier, user name
and (well-formed) history, the returned payload has exactly 4 items in each
of dos, donts and consult_when: every table entry and the default hold at
least 4 items per list and each list is truncated to its first 4 items. -/
theorem claim_C10_four_items (disease : String) (confidence : ℚ)
    (risk_level user_name : String) (hist : Option (List PredictionRecord))
    (hwf : wellFormedHistory hist = true) :
    ∃ payload,
      generate_precautions disease confidence risk_level user_name hist =
        Except.ok payload ∧
      payload.dos.length = 4 ∧ payload.donts.length = 4 ∧
      payload.consult_when.length = 4 := by
  rcases hcase : DISEASE_PRECAUTIONS.lookup disease with _ | entry
  · have hE : (DISEASE_PRECAUTIONS.lookup disease).getD DEFAULT_PRECAUTIONS =
        DEFAULT_PRECAUTIONS := by rw [hcase]; rfl
    obtain ⟨payload, hok, hdos, hdonts, hcons, -⟩ :=
      generate_precautions_fields disease confidence risk_level user_name hist
        DEFAULT_PRECAUTIONS hE hwf
    refine ⟨payload, hok, ?_, ?_, ?_⟩
    · rw [hdos]; rfl
    · rw [hdonts]; rfl
    · rw [hcons]; rfl
  · have hE : (DISEASE_PRECAUTIONS.lookup disease).getD DEFAULT_PRECAUTIONS = entry := by
      rw [hcase]; rfl
    obtain ⟨payload, hok, hdos, hdonts, hcons, -⟩ :=
      generate_precautions_fields disease confidence risk_level user_name hist
        entry hE hwf
    have h4 := disease_precautions_lengths _ (lookup_mem_of_eq_some hcase)
    have hdos4 : entry.dos.length = 4 := h4.2.1
    have hdonts4 : entry.donts.length = 4 := h4.2.2.1
    have hcons4 : entry.consult_doctor.length = 4 := h4.2.2.2
    refine ⟨payload, hok, ?_, ?_, ?_⟩
    · rw [hdos, List.length_take, hdos4]; decide
    · rw [hdonts, List.length_take, hdonts4]; decide
    · rw [hcons, List.length_take, hcons4]; decide

/-- Witness for C10: the listed disease Diabetes with a two-element history. -/
theorem claim_C10_witness :
    ∃ payload,
      generate_precautions "Diabetes" (3/5) "MEDIUM" "Pat"
          (some [{ predicted_disease := some "Diabetes" },
                 { predicted_disease := some "Diabetes" }]) =
        Except.ok payload ∧
      payload.dos.length = 4 ∧ payload.donts.length = 4 ∧
      payload.consult_when.length = 4 :=
  claim_C10_four_items "Diabetes" (3/5) "MEDIUM" "Pat"
    (some [{ predicted_disease := some "Diabetes" },
           { predicted_disease := some "Diabetes" }]) (by decide)

end HealthAssistant
